import Mathlib

/-!
# Image acquisition pipeline: Downloader and Verifier

A shallow embedding of `cmd/downloader/downloader.go` and
`src/github.com/zededa/go-provision/verifier/verifier.go`.

Process globals and the files the handlers touch are carried in an explicit
state record; every write of a status file is also appended to a trace, so
that what an observer of the status directory sees can be stated.
Go's `uint` and `int` are modelled as `Nat`/`Int` reduced modulo `2 ^ w`.
-/

namespace Eve

/-! ## Machine arithmetic -/

/-- Width of Go's `uint` and `int` on the build target: 32 or 64 bits. -/
inductive Arch where
  | bits32
  | bits64
  deriving DecidableEq, Repr

/-- Number of bits of `uint` on the target. -/
def Arch.bits : Arch → Nat
  | .bits32 => 32
  | .bits64 => 64

/-- Number of values of `uint` on the target, `2 ^ w`. -/
def Arch.modulus (a : Arch) : Nat := 2 ^ a.bits

/-- Conversion `uint(x)`: the value of `x` modulo `2 ^ w`. -/
def toUint (a : Arch) (x : Int) : Nat := (x % (a.modulus : Int)).toNat

/-- Conversion to Go's signed `int`: two's complement representative of `x`. -/
def toInt (a : Arch) (x : Int) : Int :=
  (x + (a.modulus : Int) / 2) % (a.modulus : Int) - (a.modulus : Int) / 2

/-- Conversion to `int64`: two's complement representative of `x` on 64 bits. -/
def wrap64 (x : Int) : Int := (x + 2 ^ 63) % 2 ^ 64 - 2 ^ 63

/-- Addition of two `uint`s. -/
def uadd (a : Arch) (x y : Nat) : Nat := toUint a ((x : Int) + (y : Int))

/-- Subtraction of two `uint`s. -/
def usub (a : Arch) (x y : Nat) : Nat := toUint a ((x : Int) - (y : Int))

/-- Addition of two `int`s. -/
def iadd (a : Arch) (x y : Int) : Int := toInt a (x + y)

/-- The expression `uint((n + 1023) / 1024)` for an `int64` value `n`:
`int64` addition, division truncating toward zero, then conversion. -/
def kibOfBytes (a : Arch) (n : Int) : Nat :=
  toUint a ((wrap64 (n + 1023)).tdiv 1024)

/-! ## Data model -/

/-- A regular file, reduced to what the two programs observe of it: its length
in bytes (`os.Stat`) and the lower-case hexadecimal SHA-256 of its bytes
(`crypto/sha256`, which is not part of this repository). -/
structure FileData where
  size : Nat
  sha256 : String
  deriving DecidableEq, Repr

/-- A flat view of a directory subtree: path to value. -/
abbrev FileMap (α : Type) := List (String × α)

/-- Value stored at `path`, if any. -/
def FileMap.find {α : Type} (m : FileMap α) (path : String) : Option α :=
  match m with
  | [] => none
  | (p, v) :: rest => if p = path then some v else FileMap.find rest path

/-- Whole-file replacement of the value at `path` (created when absent). -/
def FileMap.store {α : Type} (m : FileMap α) (path : String) (v : α) : FileMap α :=
  match m with
  | [] => [(path, v)]
  | (p, x) :: rest =>
    if p = path then (p, v) :: rest else (p, x) :: FileMap.store rest path v

/-- Removal of the entry at `path`. -/
def FileMap.remove {α : Type} (m : FileMap α) (path : String) : FileMap α :=
  match m with
  | [] => []
  | (p, x) :: rest =>
    if p = path then FileMap.remove rest path else (p, x) :: FileMap.remove rest path

/-- Modelled from the spec: `types.SwState`, whose declaration is not part of
the sources. The zero value of the type is taken to be `INITIAL`, following
"Write status with `PendingAdd=true`, `State=Initial`". -/
inductive SwState where
  | INITIAL
  | DOWNLOAD_STARTED
  | DOWNLOADED
  | DELIVERED
  deriving DecidableEq, Repr

/-- Modelled from the spec: `types.DownloaderConfig` (declaration not part of
the sources); `MaxSize` and `RefCount` are `uint`. -/
structure DownloaderConfig where
  Safename : String
  DownloadURL : String
  ImageSha256 : String
  MaxSize : Nat
  RefCount : Nat
  deriving DecidableEq, Repr

/-- Modelled from the spec: `types.DownloaderStatus` (declaration not part of
the sources). `Size`, `ReservedSpace` and `RefCount` are `uint`, `RetryCount`
is `int`, the two times are abstract clock readings. -/
structure DownloaderStatus where
  Safename : String
  RefCount : Nat
  DownloadURL : String
  ImageSha256 : String
  PendingAdd : Bool
  PendingModify : Bool
  PendingDelete : Bool
  State : SwState
  Size : Nat
  ReservedSpace : Nat
  ModTime : Nat
  LastErr : String
  LastErrTime : Nat
  RetryCount : Int
  deriving DecidableEq, Repr

/-- The Go zero value of `types.DownloaderStatus`. -/
def DownloaderStatus.zero : DownloaderStatus :=
  { Safename := "", RefCount := 0, DownloadURL := "", ImageSha256 := "",
    PendingAdd := false, PendingModify := false, PendingDelete := false,
    State := .INITIAL, Size := 0, ReservedSpace := 0, ModTime := 0,
    LastErr := "", LastErrTime := 0, RetryCount := 0 }

/-- Modelled from the spec: `types.GlobalDownloadConfig` (declaration not part
of the sources). -/
structure GlobalDownloadConfig where
  MaxSpace : Nat
  deriving DecidableEq, Repr

/-- Modelled from the spec: `types.GlobalDownloadStatus` (declaration not part
of the sources); all three fields are `uint`, in KiB. -/
structure GlobalDownloadStatus where
  UsedSpace : Nat
  ReservedSpace : Nat
  RemainingSpace : Nat
  deriving DecidableEq, Repr

/-- The package-level variable `imgCatalogDirname`, as assigned in `main` of
both programs. -/
def imgCatalogDirname : String := "/var/tmp/zedmanager/downloads"

/-- How a handler call ends: it returns to the event loop, or `log.Fatal` ends
the process; either way the files are left as the record says. -/
inductive Run (σ : Type) where
  | returned (s : σ)
  | fatal (s : σ)
  deriving DecidableEq, Repr

/-- The files as the call left them. -/
def Run.state {σ : Type} : Run σ → σ
  | .returned s => s
  | .fatal s => s

/-! ## Downloader -/

namespace Downloader

/-- What the handlers do to the outside world, in program order. -/
inductive Effect where
  | wroteGlobal (g : GlobalDownloadStatus)
  | wroteStatus (file : String) (s : DownloaderStatus)
  | ranWget (url : String) (dest : String)
  | removedFile (path : String)
  | removedStatus (file : String)
  deriving DecidableEq, Repr

/-- The Downloader process together with the files it owns: the package-level
variables `globalConfig` and `globalStatus`, the file behind
`globalStatusFilename`, the status directory, and the regular files of the
image catalogue. -/
structure Machine where
  globalConfig : GlobalDownloadConfig
  globalStatus : GlobalDownloadStatus
  globalStatusFile : Option GlobalDownloadStatus
  statusDir : FileMap DownloaderStatus
  catalogue : FileMap FileData
  trace : List Effect
  deriving DecidableEq, Repr

/-- Outcome of one run of the `wget` command: its exit error, if any, and
what it left at the destination (`none`: the destination was not touched). -/
structure WgetResult where
  err : Option String
  written : Option FileData
  deriving DecidableEq, Repr

/-- What the environment supplies to one handler call: the result of the
fetch, should the handler start one, and the reading of `time.Now()`. -/
structure Env where
  wget : WgetResult
  now : Nat
  deriving DecidableEq, Repr

/-- An entry returned by `ioutil.ReadDir`: a regular file with its size in
bytes, or a directory with its own entries. -/
inductive DirEntry where
  | file (name : String) (size : Nat)
  | dir (name : String) (entries : List DirEntry)

mutual
/-- The addend of one iteration of the loop of `sizeFromDir`: the size of a
file, or the recursive total of a directory. -/
def locationSize : DirEntry → Int
  | .file _ size => (size : Int)
  | .dir _ entries => sizeFromDirLoop entries 0
termination_by structural x => x
/-- The loop of `sizeFromDir` over the entries of a directory, with the running
`int64` total `totalUsed`. -/
def sizeFromDirLoop : List DirEntry → Int → Int
  | [], totalUsed => totalUsed
  | location :: rest, totalUsed =>
    sizeFromDirLoop rest (wrap64 (totalUsed + locationSize location))
termination_by structural x => x
end

/-- Source `sizeFromDir`: total size in bytes of all files below a directory. -/
def sizeFromDir (locations : List DirEntry) : Int := sizeFromDirLoop locations 0

/-- The assignment `globalStatus.UsedSpace = n`. -/
def Machine.setUsedSpace (d : Machine) (n : Nat) : Machine :=
  { d with globalStatus := { d.globalStatus with UsedSpace := n } }

/-- The assignment `globalStatus.ReservedSpace = n`. -/
def Machine.setReservedSpace (d : Machine) (n : Nat) : Machine :=
  { d with globalStatus := { d.globalStatus with ReservedSpace := n } }

/-- Source `writeGlobalStatus`. -/
def writeGlobalStatus (d : Machine) : Machine :=
  { d with
    globalStatusFile := some d.globalStatus
    trace := d.trace ++ [Effect.wroteGlobal d.globalStatus] }

/-- Source `updateRemainingSpace`. -/
def updateRemainingSpace (a : Arch) (d : Machine) : Machine :=
  writeGlobalStatus
    { d with
      globalStatus :=
        { d.globalStatus with
          RemainingSpace :=
            usub a (usub a d.globalConfig.MaxSpace d.globalStatus.UsedSpace)
              d.globalStatus.ReservedSpace } }

/-- Source `handleInit`. The configuration file is given as the result of
reading and decoding it (`none` when either fails, which ends the process),
the catalogue directory as the entries `ioutil.ReadDir` returns. -/
def handleInit (a : Arch) (config : Option GlobalDownloadConfig)
    (locations : List DirEntry) (d : Machine) : Option Machine :=
  match config with
  | none => none
  | some c =>
    let d := { d with globalConfig := c }
    let d := d.setUsedSpace 0
    let d := d.setReservedSpace 0
    let d := updateRemainingSpace a d
    let totalUsed := sizeFromDir locations
    let d := d.setUsedSpace (kibOfBytes a totalUsed)
    some (updateRemainingSpace a d)

/-- Source `writeDownloaderStatus`. -/
def writeDownloaderStatus (status : DownloaderStatus) (statusFilename : String)
    (d : Machine) : Machine :=
  { d with
    statusDir := d.statusDir.store statusFilename status
    trace := d.trace ++ [Effect.wroteStatus statusFilename status] }

/-- The call `os.Remove(path)` on a file of the catalogue. -/
def removeFile (path : String) (d : Machine) : Machine :=
  { d with
    catalogue := d.catalogue.remove path
    trace := d.trace ++ [Effect.removedFile path] }

/-- The call `os.Remove(statusFilename)`. -/
def removeStatusFile (statusFilename : String) (d : Machine) : Machine :=
  { d with
    statusDir := d.statusDir.remove statusFilename
    trace := d.trace ++ [Effect.removedStatus statusFilename] }

/-- Source `doDelete`. The file it looks for is `pending/<Safename>`, as the
source spells the path; the catalogue records regular files only, so a
directory of that name counts as absent (removing it would not touch a file). -/
def doDelete (a : Arch) (statusFilename : String) (status : DownloaderStatus)
    (d : Machine) : DownloaderStatus × Machine :=
  let destFilename := imgCatalogDirname ++ "/pending/" ++ status.Safename
  let d := if (d.catalogue.find destFilename).isSome then removeFile destFilename d else d
  let status := { status with State := SwState.INITIAL }
  let d :=
    if status.Size > d.globalStatus.UsedSpace then d.setUsedSpace 0
    else d.setUsedSpace (usub a d.globalStatus.UsedSpace status.Size)
  let status := { status with Size := 0 }
  let d := updateRemainingSpace a d
  (status, writeDownloaderStatus status statusFilename d)

/-- Source `doWget`: runs the command and returns its error. -/
def doWget (url : String) (destFilename : String) (env : Env)
    (d : Machine) : Option String × Machine :=
  let d := { d with trace := d.trace ++ [Effect.ranWget url destFilename] }
  match env.wget.written with
  | some file =>
    (env.wget.err, { d with catalogue := d.catalogue.store destFilename file })
  | none => (env.wget.err, d)

/-- Message of the error `os.Stat` returns for a missing file. -/
def statError (path : String) : String :=
  "stat " ++ path ++ ": no such file or directory"

/-- The assignments every failure branch of `handleCreate` and `doCreate`
makes to the status: `PendingAdd = false`, `Size = 0`, `LastErr = errString`,
`LastErrTime = time.Now()`, `RetryCount += 1`, `State = INITIAL`. -/
def recordFailure (a : Arch) (status : DownloaderStatus) (errString : String)
    (now : Nat) : DownloaderStatus :=
  { status with
    PendingAdd := false
    Size := 0
    LastErr := errString
    LastErrTime := now
    RetryCount := iadd a status.RetryCount 1
    State := SwState.INITIAL }

/-- The status literal `types.DownloaderStatus` built from the config by
`handleCreate` (with `PendingAdd: true`) and by `handleModify` (without). -/
def statusOf (config : DownloaderConfig) (pendingAdd : Bool) : DownloaderStatus :=
  { DownloaderStatus.zero with
    Safename := config.Safename
    RefCount := config.RefCount
    DownloadURL := config.DownloadURL
    ImageSha256 := config.ImageSha256
    PendingAdd := pendingAdd }

/-- The failure epilogue shared by the three error branches of `doCreate`:
`doDelete`, the failure assignments, and the status write. -/
def createFailed (a : Arch) (statusFilename : String) (status : DownloaderStatus)
    (errString : String) (env : Env) (d : Machine) :
    DownloaderStatus × Machine :=
  let r := doDelete a statusFilename status d
  let status := recordFailure a r.1 errString env.now
  (status, writeDownloaderStatus status statusFilename r.2)

/-- Source `doCreate`. -/
def doCreate (a : Arch) (statusFilename : String) (config : DownloaderConfig)
    (status : DownloaderStatus) (env : Env) (d : Machine) :
    DownloaderStatus × Machine :=
  let status := { status with State := SwState.DOWNLOAD_STARTED }
  let d := writeDownloaderStatus status statusFilename d
  let destDirname := imgCatalogDirname ++ "/pending/" ++ config.ImageSha256
  let destFilename := destDirname ++ "/" ++ config.Safename
  let r := doWget config.DownloadURL destFilename env d
  let err := r.1
  let d := r.2
  match err with
  | some e => createFailed a statusFilename status e env d
  | none =>
    match d.catalogue.find destFilename with
    | none => createFailed a statusFilename status (statError destFilename) env d
    | some info =>
      let status := { status with Size := kibOfBytes a (info.size : Int) }
      if status.Size > config.MaxSize then
        let errString :=
          "Size exceeds MaxSize; " ++ toString status.Size ++ " vs. " ++
            toString config.MaxSize ++ " for " ++ config.DownloadURL ++ "\n"
        createFailed a statusFilename status errString env d
      else
        let d := d.setReservedSpace
          (usub a d.globalStatus.ReservedSpace status.ReservedSpace)
        let status := { status with ReservedSpace := 0 }
        let d := d.setUsedSpace (uadd a d.globalStatus.UsedSpace status.Size)
        let d := updateRemainingSpace a d
        let status :=
          { status with
            ModTime := env.now
            PendingAdd := false
            State := SwState.DOWNLOADED }
        (status, writeDownloaderStatus status statusFilename d)

/-- Source `handleCreate`. -/
def handleCreate (a : Arch) (statusFilename : String) (config : DownloaderConfig)
    (env : Env) (d : Machine) : Machine :=
  let status := statusOf config true
  let d := writeDownloaderStatus status statusFilename d
  if config.MaxSize ≥ d.globalStatus.RemainingSpace then
    let errString :=
      "Would exceed remaining space " ++ toString config.MaxSize ++ " vs " ++
        toString d.globalStatus.RemainingSpace ++ "\n"
    let status := recordFailure a status errString env.now
    writeDownloaderStatus status statusFilename d
  else
    let status := { status with ReservedSpace := config.MaxSize }
    let d := d.setReservedSpace
      (uadd a d.globalStatus.ReservedSpace status.ReservedSpace)
    let d := updateRemainingSpace a d
    if config.RefCount = 0 then
      let errString :=
        "RefCount==0; download deferred for " ++ config.DownloadURL ++ "\n"
      let status := recordFailure a status errString env.now
      writeDownloaderStatus status statusFilename d
    else
      (doCreate a statusFilename config status env d).2

/-- Source `handleModify`. -/
def handleModify (a : Arch) (statusFilename : String) (config : DownloaderConfig)
    (status : DownloaderStatus) (env : Env) (d : Machine) : Machine :=
  if config.DownloadURL ≠ status.DownloadURL then d
  else if status.ImageSha256 ≠ config.ImageSha256 ∨ status.LastErr ≠ "" then
    let d := (doDelete a statusFilename status d).2
    let status := statusOf config false
    (doCreate a statusFilename config status env d).2
  else if status.RefCount = 0 ∧ config.RefCount ≠ 0 then
    let r := doCreate a statusFilename config status env d
    let status := r.1
    let d := r.2
    let status := { status with RefCount := config.RefCount, PendingModify := false }
    writeDownloaderStatus status statusFilename d
  else if status.RefCount ≠ 0 ∧ config.RefCount = 0 then
    (doDelete a statusFilename status d).2
  else
    let status := { status with RefCount := config.RefCount, PendingModify := false }
    writeDownloaderStatus status statusFilename d

/-- Source `handleDelete`. -/
def handleDelete (a : Arch) (statusFilename : String) (status : DownloaderStatus)
    (d : Machine) : Machine :=
  let status := { status with PendingDelete := true }
  let d := writeDownloaderStatus status statusFilename d
  let d := d.setReservedSpace
    (usub a d.globalStatus.ReservedSpace status.ReservedSpace)
  let status := { status with ReservedSpace := 0 }
  let d :=
    if status.Size > d.globalStatus.UsedSpace then d.setUsedSpace 0
    else d.setUsedSpace (usub a d.globalStatus.UsedSpace status.Size)
  let status := { status with Size := 0 }
  let d := updateRemainingSpace a d
  let d := writeDownloaderStatus status statusFilename d
  let r := doDelete a statusFilename status d
  let status := r.1
  let d := r.2
  let status := { status with PendingDelete := false }
  let d := writeDownloaderStatus status statusFilename d
  removeStatusFile statusFilename d

/-- One handler call, with the arguments the event loop passes. -/
inductive Call where
  | create (statusFilename : String) (config : DownloaderConfig) (env : Env)
  | modify (statusFilename : String) (config : DownloaderConfig)
      (status : DownloaderStatus) (env : Env)
  | delete (statusFilename : String) (status : DownloaderStatus)
  deriving DecidableEq, Repr

/-- Runs one handler call. -/
def Call.run (a : Arch) (c : Call) (d : Machine) : Machine :=
  match c with
  | .create statusFilename config env => handleCreate a statusFilename config env d
  | .modify statusFilename config status env =>
    handleModify a statusFilename config status env d
  | .delete statusFilename status => handleDelete a statusFilename status d

/-- Runs handler calls one after the other, as the single-threaded event loop
of `main` does. -/
def runCalls (a : Arch) (calls : List Call) (d : Machine) : Machine :=
  calls.foldl (fun d c => c.run a d) d

/-- The file `handleModify` and `handleDelete` are handed as `status`: the
content of the status file at `statusFilename`. -/
def statusAt (statusFilename : String) (d : Machine) : Option DownloaderStatus :=
  d.statusDir.find statusFilename

/-- The file `os.Stat` finds at `destFilename` once `wget` has run. -/
def fetched (env : Env) (destFilename : String) (d : Machine) : Option FileData :=
  match env.wget.written with
  | some file => some file
  | none => d.catalogue.find destFilename

/-- The ledger equation, in the arithmetic of the `uint` fields: the
`RemainingSpace` of `g` is `maxSpace - UsedSpace - ReservedSpace` modulo
`2 ^ w`. -/
def Balanced (a : Arch) (maxSpace : Nat) (g : GlobalDownloadStatus) : Prop :=
  (g.RemainingSpace : Int) =
    ((maxSpace : Int) - (g.UsedSpace : Int) - (g.ReservedSpace : Int)) %
      (2 ^ a.bits : Int)

/-- The ledger equation holds of the process variable `globalStatus`, and the
global status file holds that same value. -/
def LedgerOk (a : Arch) (d : Machine) : Prop :=
  Balanced a d.globalConfig.MaxSpace d.globalStatus ∧
    d.globalStatusFile = some d.globalStatus

/-- The message `handleCreate` records when admission is denied. -/
def noSpaceError (maxSize remaining : Nat) : String :=
  "Would exceed remaining space " ++ toString maxSize ++ " vs " ++
    toString remaining ++ "\n"

/-- The message `doCreate` records when the fetched file is larger than
`MaxSize`. -/
def sizeError (size maxSize : Nat) (url : String) : String :=
  "Size exceeds MaxSize; " ++ toString size ++ " vs. " ++
    toString maxSize ++ " for " ++ url ++ "\n"

/-- The file `doCreate` fetches into: `pending/<sha>/<name>`. -/
def destOf (config : DownloaderConfig) : String :=
  imgCatalogDirname ++ "/pending/" ++ config.ImageSha256 ++ "/" ++ config.Safename

/-- The call of `handleModify` the way the event loop makes it: with the content
of the status file as `status` (nothing happens when there is no such file). -/
def modifyFromFile (a : Arch) (statusFilename : String) (config : DownloaderConfig)
    (env : Env) (d : Machine) : Machine :=
  match statusAt statusFilename d with
  | some status => handleModify a statusFilename config status env d
  | none => d

/-- The call of `handleDelete` the way the event loop makes it: with the content
of the status file as `status` (nothing happens when there is no such file). -/
def deleteFromFile (a : Arch) (statusFilename : String) (d : Machine) : Machine :=
  match statusAt statusFilename d with
  | some status => handleDelete a statusFilename status d
  | none => d

/-- The first write of the global status file among `effects`, if any. -/
def firstGlobalWrite : List Effect → Option GlobalDownloadStatus
  | [] => none
  | Effect.wroteGlobal g :: _ => some g
  | _ :: rest => firstGlobalWrite rest

/-- The message `handleCreate` records when `RefCount` is zero. -/
def deferredError (url : String) : String :=
  "RefCount==0; download deferred for " ++ url ++ "\n"

/-- The status of `handleCreate` once the reservation is recorded in it. -/
def reservedStatus (config : DownloaderConfig) : DownloaderStatus :=
  { statusOf config true with ReservedSpace := config.MaxSize }

/-- The process right after the reservation step of `handleCreate`. -/
def afterReservation (a : Arch) (statusFilename : String) (config : DownloaderConfig)
    (d : Machine) : Machine :=
  updateRemainingSpace a
    ((writeDownloaderStatus (statusOf config true) statusFilename d).setReservedSpace
      (uadd a d.globalStatus.ReservedSpace config.MaxSize))

/-- The process right after the `doWget` call of `doCreate`. -/
def afterWget (statusFilename : String) (config : DownloaderConfig)
    (status : DownloaderStatus) (env : Env) (d : Machine) : Machine :=
  (doWget config.DownloadURL (destOf config) env
    (writeDownloaderStatus { status with State := SwState.DOWNLOAD_STARTED }
      statusFilename d)).2

/-- The status `doCreate` leaves on success. -/
def downloadedStatus (a : Arch) (status : DownloaderStatus) (info : FileData)
    (now : Nat) : DownloaderStatus :=
  { status with
    State := SwState.DOWNLOADED
    Size := kibOfBytes a (info.size : Int)
    ReservedSpace := 0
    ModTime := now
    PendingAdd := false }

/-- The trace of `d2` continues that of `d1`. -/
def Continues (d1 d2 : Machine) : Prop := ∃ l, d2.trace = d1.trace ++ l

/-- The effects a call appended to the trace: those of `d2` after the ones
already in `d1`. -/
def effectsSince (d1 d2 : Machine) : List Effect :=
  d2.trace.drop d1.trace.length

/-- The call `handleCreate` makes a reservation: the first global status it
writes has `ReservedSpace` raised by `MaxSize` (in `uint` arithmetic) and
`UsedSpace` as before. -/
def Reserves (a : Arch) (statusFilename : String) (config : DownloaderConfig)
    (env : Env) (d : Machine) : Prop :=
  (firstGlobalWrite (effectsSince d (handleCreate a statusFilename config env d))).map
      (fun g => (g.ReservedSpace, g.UsedSpace)) =
    some (uadd a d.globalStatus.ReservedSpace config.MaxSize, d.globalStatus.UsedSpace)

instance (a : Arch) (statusFilename : String) (config : DownloaderConfig)
    (env : Env) (d : Machine) : Decidable (Reserves a statusFilename config env d) := by
  unfold Reserves
  infer_instance

/-- A ledger with a budget of 1024 KiB and nothing used or reserved. -/
def emptyLedger1024 : Machine :=
  { globalConfig := { MaxSpace := 1024 }
    globalStatus := { UsedSpace := 0, ReservedSpace := 0, RemainingSpace := 1024 }
    globalStatusFile := some { UsedSpace := 0, ReservedSpace := 0, RemainingSpace := 1024 }
    statusDir := []
    catalogue := []
    trace := [] }

/-- A request for an image of at most `maxSize` KiB, referenced `refCount`
times. -/
def imageConfig (maxSize refCount : Nat) : DownloaderConfig :=
  { Safename := "img"
    DownloadURL := "https://example.com/img"
    ImageSha256 := "0f2c"
    MaxSize := maxSize
    RefCount := refCount }

/-- The status file of `imageConfig`. -/
def imageStatusFile : String := "/var/run/downloader/status/img.json"

/-- A fetch that succeeds and leaves a file of `bytes` bytes. -/
def fetchOk (bytes : Nat) (now : Nat) : Env :=
  { wget := { err := none, written := some { size := bytes, sha256 := "0f2c" } }
    now := now }

/-- A fetch that fails and leaves nothing at the destination. -/
def fetchFails (now : Nat) : Env :=
  { wget := { err := some "exit status 4", written := none }
    now := now }

/-- A ledger with a budget of 1000 KiB of which 100 KiB are used. -/
def ledger1000 : Machine :=
  { globalConfig := { MaxSpace := 1000 }
    globalStatus := { UsedSpace := 100, ReservedSpace := 0, RemainingSpace := 900 }
    globalStatusFile := some { UsedSpace := 100, ReservedSpace := 0, RemainingSpace := 900 }
    statusDir := []
    catalogue := []
    trace := [] }

/-- The call `handleCreate` followed by `handleDelete` on the status that
create wrote. -/
def createThenDelete (a : Arch) (statusFilename : String) (config : DownloaderConfig)
    (env : Env) (d : Machine) : Machine :=
  deleteFromFile a statusFilename (handleCreate a statusFilename config env d)

/-- A ledger with a budget of 100 KiB and nothing used or reserved. -/
def ledger100 : Machine :=
  { globalConfig := { MaxSpace := 100 }
    globalStatus := { UsedSpace := 0, ReservedSpace := 0, RemainingSpace := 100 }
    globalStatusFile := some { UsedSpace := 0, ReservedSpace := 0, RemainingSpace := 100 }
    statusDir := []
    catalogue := []
    trace := [] }

/-- The ledger of the happy-path scenario: a budget of 1048576 KiB, nothing used
or reserved. -/
def ledgerGiB : Machine :=
  { globalConfig := { MaxSpace := 1048576 }
    globalStatus := { UsedSpace := 0, ReservedSpace := 0, RemainingSpace := 1048576 }
    globalStatusFile :=
      some { UsedSpace := 0, ReservedSpace := 0, RemainingSpace := 1048576 }
    statusDir := []
    catalogue := []
    trace := [] }

/-- The `doCreate` call of the happy-path scenario: a 1,500,000-byte file for a
request of at most 2048 KiB. -/
def happyRun : DownloaderStatus × Machine :=
  doCreate Arch.bits64 imageStatusFile (imageConfig 2048 1)
    (reservedStatus (imageConfig 2048 1)) (fetchOk 1500000 7) ledgerGiB

/-- A status in state `DOWNLOADED` of 50 KiB for `imageConfig maxSize 1`. -/
def downloadedImageStatus : DownloaderStatus :=
  { statusOf (imageConfig 60 1) false with
    State := SwState.DOWNLOADED
    Size := 50
    ModTime := 7 }

/-- A ledger of 100 KiB holding the downloaded image: 50 KiB used, with its
status file and its file in `pending/`. -/
def ledgerWithImage : Machine :=
  { globalConfig := { MaxSpace := 100 }
    globalStatus := { UsedSpace := 50, ReservedSpace := 0, RemainingSpace := 50 }
    globalStatusFile := some { UsedSpace := 50, ReservedSpace := 0, RemainingSpace := 50 }
    statusDir := [(imageStatusFile, downloadedImageStatus)]
    catalogue := [(destOf (imageConfig 60 1), { size := 51200, sha256 := "0f2c" })]
    trace := [] }

/-- A status that records a reservation of 60 KiB and no download. -/
def reservedImageStatus : DownloaderStatus :=
  { statusOf (imageConfig 60 0) false with ReservedSpace := 60 }

mutual
/-- The number of bytes of one directory entry: the size of a file, or the
bytes of all files found recursively below a directory. -/
def entryBytes : DirEntry → Nat
  | .file _ size => size
  | .dir _ entries => bytesBelow entries
termination_by structural x => x
/-- The sum of the sizes in bytes of all files found recursively. -/
def bytesBelow : List DirEntry → Nat
  | [] => 0
  | location :: rest => entryBytes location + bytesBelow rest
termination_by structural x => x
end

mutual
/-- The KiB of one directory entry when every file is rounded up on its own. -/
def entryKibPerFile : DirEntry → Nat
  | .file _ size => (size + 1023) / 1024
  | .dir _ entries => kibPerFile entries
termination_by structural x => x
/-- The sum, over all files found recursively, of `ceil(size / 1024)`: each
file rounded up to whole KiB separately. -/
def kibPerFile : List DirEntry → Nat
  | [] => 0
  | location :: rest => entryKibPerFile location + kibPerFile rest
termination_by structural x => x
end

/-- A catalogue directory holding two files of one byte each. -/
def twoTinyFiles : List DirEntry :=
  [DirEntry.dir "verified" [DirEntry.dir "0f2c" [DirEntry.file "a" 1, DirEntry.file "b" 1]]]

/-- The Downloader process as it starts: all package-level variables zero, no
files. -/
def freshProcess : Machine :=
  { globalConfig := { MaxSpace := 0 }
    globalStatus := { UsedSpace := 0, ReservedSpace := 0, RemainingSpace := 0 }
    globalStatusFile := none
    statusDir := []
    catalogue := []
    trace := [] }

/-- What `handleCreate` copies from the config into the status, with all
pending flags clear. -/
def Mirrors (st : DownloaderStatus) (config : DownloaderConfig) : Prop :=
  st.RefCount = config.RefCount ∧ st.DownloadURL = config.DownloadURL ∧
  st.ImageSha256 = config.ImageSha256 ∧ st.PendingAdd = false ∧
  st.PendingModify = false ∧ st.PendingDelete = false

/-- The sum of the `ReservedSpace` fields of all status files that exist. -/
def reservedInStatusFiles (d : Machine) : Nat :=
  (d.statusDir.map (fun e => e.2.ReservedSpace)).sum

/-- The image of `imageConfig 60 1` downloaded on `ledger100`: 50 KiB used. -/
def imageDownloaded : Machine :=
  handleCreate Arch.bits64 imageStatusFile (imageConfig 60 1) (fetchOk 51200 7) ledger100

/-- The process `imageDownloaded` after the modify that drops `RefCount` to 0. -/
def imageDropped : Machine :=
  modifyFromFile Arch.bits64 imageStatusFile (imageConfig 60 0) (fetchOk 51200 8)
    imageDownloaded

/-- The process `imageDropped` after the modify that raises `RefCount` to 1
again, with a fetch that would deliver the 50 KiB. -/
def imageWantedAgain : Machine :=
  modifyFromFile Arch.bits64 imageStatusFile (imageConfig 60 1) (fetchOk 51200 9)
    imageDropped

/-- A create of `imageConfig 60 1` on `ledger100` whose fetch fails. -/
def imageFailedOnce : Machine :=
  handleCreate Arch.bits64 imageStatusFile (imageConfig 60 1) (fetchFails 7) ledger100

/-- The process `imageFailedOnce` after a modify with the same config whose
fetch fails again. -/
def imageFailedTwice : Machine :=
  modifyFromFile Arch.bits64 imageStatusFile (imageConfig 60 1) (fetchFails 8)
    imageFailedOnce

/-- The process `imageFailedOnce` after a modify with the same config whose
fetch delivers 50 KiB. -/
def imageRetried : Machine :=
  modifyFromFile Arch.bits64 imageStatusFile (imageConfig 60 1) (fetchOk 51200 8)
    imageFailedOnce

/-- The `doCreate` call that `handleCreate` makes on a 32-bit target for a
request of at most 60 KiB on `ledger100`, with a fetch that leaves a file of
`2 ^ 42` bytes (4 TiB). -/
def hugeRun32 : DownloaderStatus × Machine :=
  doCreate Arch.bits32 imageStatusFile (imageConfig 60 1)
    (reservedStatus (imageConfig 60 1)) (fetchOk (2 ^ 42) 7)
    (afterReservation Arch.bits32 imageStatusFile (imageConfig 60 1) ledger100)

/-- The `doCreate` call that `handleCreate` makes on a 64-bit target for a
request of at most `2 ^ 53` KiB on a ledger of `2 ^ 54` KiB, with a fetch that
leaves a file of `2 ^ 63 - 1` bytes, the largest size an `int64` holds. -/
def hugeRun64 : DownloaderStatus × Machine :=
  doCreate Arch.bits64 imageStatusFile (imageConfig (2 ^ 53) 1)
    (reservedStatus (imageConfig (2 ^ 53) 1)) (fetchOk (2 ^ 63 - 1) 7)
    (afterReservation Arch.bits64 imageStatusFile (imageConfig (2 ^ 53) 1)
      { ledger100 with
        globalConfig := { MaxSpace := 2 ^ 54 }
        globalStatus := { UsedSpace := 0, ReservedSpace := 0, RemainingSpace := 2 ^ 54 }
        globalStatusFile :=
          some { UsedSpace := 0, ReservedSpace := 0, RemainingSpace := 2 ^ 54 } })

end Downloader

/-! ## Verifier -/

namespace Verifier

/-- Modelled from the spec: `types.VerifyImageConfig` (declaration not part of
the sources). -/
structure VerifyImageConfig where
  Safename : String
  DownloadURL : String
  ImageSha256 : String
  deriving DecidableEq, Repr

/-- Modelled from the spec: `types.VerifyImageStatus` (declaration not part of
the sources), with the fields the handlers use. -/
structure VerifyImageStatus where
  Safename : String
  DownloadURL : String
  ImageSha256 : String
  PendingAdd : Bool
  PendingModify : Bool
  PendingDelete : Bool
  State : SwState
  LastErr : String
  LastErrTime : Nat
  deriving DecidableEq, Repr

/-- What the handlers do to the outside world, in program order. -/
inductive Effect where
  | wroteStatus (file : String) (s : VerifyImageStatus)
  | renamed (src : String) (dest : String)
  | removedStatus (file : String)
  deriving DecidableEq, Repr

/-- The files the Verifier works on: its status directory and the regular
files of the image catalogue. -/
structure Machine where
  statusDir : FileMap VerifyImageStatus
  catalogue : FileMap FileData
  trace : List Effect
  deriving DecidableEq, Repr

/-- What the environment decides during one handler call: the clock, whether a
system call whose failure ends the process fails for a reason outside the
modelled files, and the errors of `os.Open` and `io.Copy`. -/
structure Env where
  now : Nat
  mkdirVerifierFails : Bool
  renameVerifierFails : Bool
  chmodVerifierFails : Bool
  openErr : Option String
  readErr : Option String
  mkdirVerifiedFails : Bool
  renameVerifiedFails : Bool
  chmodVerifiedFails : Bool
  deriving DecidableEq, Repr

/-- The test `strings.HasSuffix(s, suffix)`. -/
def hasSuffix (s suffix : String) : Bool := suffix.data.isSuffixOf s.data

/-- The directory `statusDirname` of `main`. -/
def statusDirname : String := "/var/run/verifier/status"

/-- Source `writeVerifyImageStatus`. -/
def writeVerifyImageStatus (status : VerifyImageStatus) (statusFilename : String)
    (v : Machine) : Machine :=
  { v with
    statusDir := v.statusDir.store statusFilename status
    trace := v.trace ++ [Effect.wroteStatus statusFilename status] }

/-- The call `os.Rename(src, dest)`: fails when `src` does not exist or the
environment refuses; otherwise the file is at `dest` and no longer at `src`.
Returns the file moved. -/
def rename (src dest : String) (refused : Bool) (v : Machine) :
    Option (FileData × Machine) :=
  if refused then none
  else
    match v.catalogue.find src with
    | none => none
    | some file =>
      some (file,
        { v with
          catalogue := (v.catalogue.remove src).store dest file
          trace := v.trace ++ [Effect.renamed src dest] })

/-- Source `handleCreate`. -/
def handleCreate (statusFilename : String) (config : VerifyImageConfig)
    (env : Env) (v : Machine) : Run Machine :=
  let status : VerifyImageStatus :=
    { Safename := config.Safename
      DownloadURL := config.DownloadURL
      ImageSha256 := config.ImageSha256
      PendingAdd := true
      PendingModify := false
      PendingDelete := false
      State := SwState.DOWNLOADED
      LastErr := ""
      LastErrTime := 0 }
  let v := writeVerifyImageStatus status statusFilename v
  let srcDirname := imgCatalogDirname ++ "/pending/" ++ config.ImageSha256
  let srcFilename := srcDirname ++ "/" ++ config.Safename
  let destDirname := imgCatalogDirname ++ "/verifier/" ++ config.ImageSha256
  let destFilename := destDirname ++ "/" ++ config.Safename
  if env.mkdirVerifierFails then Run.fatal v
  else
    match rename srcFilename destFilename env.renameVerifierFails v with
    | none => Run.fatal v
    | some (f, v) =>
      if env.chmodVerifierFails then Run.fatal v
      else
        match env.openErr with
        | some err =>
          let status :=
            { status with
              LastErr := err
              LastErrTime := env.now
              State := SwState.INITIAL }
          Run.returned (writeVerifyImageStatus status statusFilename v)
        | none =>
          match env.readErr with
          | some err =>
            let status :=
              { status with
                LastErr := err
                LastErrTime := env.now
                State := SwState.INITIAL }
            Run.returned (writeVerifyImageStatus status statusFilename v)
          | none =>
            let got := f.sha256
            if got ≠ config.ImageSha256 then
              let status :=
                { status with
                  LastErr := "got " ++ got ++ " expected " ++ config.ImageSha256
                  LastErrTime := env.now
                  PendingAdd := false
                  State := SwState.INITIAL }
              Run.returned (writeVerifyImageStatus status statusFilename v)
            else
              let finalDirname := imgCatalogDirname ++ "/verified/" ++ config.ImageSha256
              let finalFilename := finalDirname ++ "/" ++ config.Safename
              if env.mkdirVerifiedFails then Run.fatal v
              else
                match rename destFilename finalFilename env.renameVerifiedFails v with
                | none => Run.fatal v
                | some (_, v) =>
                  if env.chmodVerifiedFails then Run.fatal v
                  else
                    let status :=
                      { status with
                        PendingAdd := false
                        State := SwState.DELIVERED }
                    Run.returned (writeVerifyImageStatus status statusFilename v)

/-- Source `handleDelete`. -/
def handleDelete (statusFilename : String) (_status : VerifyImageStatus)
    (v : Machine) : Machine :=
  { v with
    statusDir := v.statusDir.remove statusFilename
    trace := v.trace ++ [Effect.removedStatus statusFilename] }

/-- Source `handleModify`. -/
def handleModify (statusFilename : String) (config : VerifyImageConfig)
    (status : VerifyImageStatus) (env : Env) (v : Machine) : Run Machine :=
  if config.Safename = status.Safename ∧
      config.DownloadURL = status.DownloadURL ∧
      config.ImageSha256 = status.ImageSha256 then
    Run.returned v
  else
    let status := { status with PendingModify := true }
    let v := writeVerifyImageStatus status statusFilename v
    let v := handleDelete statusFilename status v
    match handleCreate statusFilename config env v with
    | Run.fatal v => Run.fatal v
    | Run.returned v =>
      let status := { status with PendingModify := false }
      Run.returned (writeVerifyImageStatus status statusFilename v)

/-- One iteration of the event loop of `main`: the change `operation fileName`
from the watcher, with `config` the result of reading and decoding the file of
that name in the config directory (`none` when either fails). -/
def handleChange (operation fileName : String) (config : Option VerifyImageConfig)
    (env : Env) (v : Machine) : Run Machine :=
  if ¬ hasSuffix fileName ".json" then Run.returned v
  else if operation = "D" then
    let statusFile := statusDirname ++ "/" ++ fileName
    match v.statusDir.find statusFile with
    | none => Run.returned v
    | some status =>
      if status.Safename ++ ".json" ≠ fileName then Run.returned v
      else Run.returned (handleDelete statusFile status v)
  else if operation ≠ "M" then Run.fatal v
  else
    match config with
    | none => Run.returned v
    | some config =>
      if config.Safename ++ ".json" ≠ fileName then Run.returned v
      else
        let statusFile := statusDirname ++ "/" ++ fileName
        match v.statusDir.find statusFile with
        | none => handleCreate statusFile config env v
        | some status =>
          if status.Safename ++ ".json" ≠ fileName then Run.returned v
          else if status.PendingAdd then handleCreate statusFile config env v
          else if status.PendingDelete then
            Run.returned (handleDelete statusFile status v)
          else if status.PendingModify then
            handleModify statusFile config status env v
          else if config.DownloadURL ≠ status.DownloadURL then Run.returned v
          else handleModify statusFile config status env v

/-- The path `verified/<sha>/<name>` of the catalogue. -/
def verifiedPath (sha name : String) : String :=
  imgCatalogDirname ++ "/verified/" ++ sha ++ "/" ++ name

/-- The path `verifier/<sha>/<name>` of the catalogue. -/
def verifierPath (sha name : String) : String :=
  imgCatalogDirname ++ "/verifier/" ++ sha ++ "/" ++ name

/-- The path `pending/<sha>/<name>` of the catalogue. -/
def pendingPath (sha name : String) : String :=
  imgCatalogDirname ++ "/pending/" ++ sha ++ "/" ++ name

/-- The path lies under the `verified/` directory of the catalogue. -/
def underVerified (p : String) : Prop :=
  (imgCatalogDirname ++ "/verified/").data <+: p.data

/-- No system call fails for a reason outside the modelled files, and the file
can be opened and read. -/
def Env.succeeds (env : Env) : Prop :=
  env.mkdirVerifierFails = false ∧ env.renameVerifierFails = false ∧
  env.chmodVerifierFails = false ∧ env.openErr = none ∧ env.readErr = none ∧
  env.mkdirVerifiedFails = false ∧ env.renameVerifiedFails = false ∧
  env.chmodVerifiedFails = false

/-- The status literal `handleCreate` starts from. -/
def statusOf (config : VerifyImageConfig) : VerifyImageStatus :=
  { Safename := config.Safename
    DownloadURL := config.DownloadURL
    ImageSha256 := config.ImageSha256
    PendingAdd := true
    PendingModify := false
    PendingDelete := false
    State := SwState.DOWNLOADED
    LastErr := ""
    LastErrTime := 0 }

/-- The catalogue once the file at `src` has been moved to `dest`. -/
def moved (cat : FileMap FileData) (src dest : String) (file : FileData) :
    FileMap FileData :=
  (cat.remove src).store dest file

/-- How one `handleCreate` call for `(sha, name)` can change the catalogue:
not at all, by the move from `pending/` to `verifier/`, or by that move
followed by the move to `verified/` of a file whose digest is `sha`. -/
def CatalogueStep (sha name : String) (cat cat2 : FileMap FileData) : Prop :=
  cat2 = cat ∨
  (∃ file, cat.find (pendingPath sha name) = some file ∧
    cat2 = moved cat (pendingPath sha name) (verifierPath sha name) file) ∨
  (∃ file, cat.find (pendingPath sha name) = some file ∧ file.sha256 = sha ∧
    cat2 = moved (moved cat (pendingPath sha name) (verifierPath sha name) file)
      (verifierPath sha name) (verifiedPath sha name) file)

/-- Every file of the catalogue carries a digest of 64 characters, as the
hexadecimal form of a SHA-256 has. -/
def WellFormed (cat : FileMap FileData) : Prop :=
  ∀ e ∈ cat, e.2.sha256.length = 64

instance (cat : FileMap FileData) : Decidable (WellFormed cat) := by
  unfold WellFormed
  infer_instance

/-- There is a file at `verified/<sha>/<name>` whose SHA-256 is `sha`. -/
def Backed (cat : FileMap FileData) (sha name : String) : Prop :=
  ∃ file, cat.find (verifiedPath sha name) = some file ∧ file.sha256 = sha

/-- Every status file in state `DELIVERED` is backed by its verified file. -/
def DeliveredBacked (v : Machine) : Prop :=
  ∀ f st, v.statusDir.find f = some st → st.State = SwState.DELIVERED →
    Backed v.catalogue st.ImageSha256 st.Safename

/-- The states the Verifier can be in: it starts with an empty status
directory and a catalogue of well-formed files; each handler is called with
the content of the status file as `status`; other programs change the
catalogue anywhere but under `verified/`. -/
inductive Reachable : Machine → Prop where
  | start (cat : FileMap FileData) (hwf : WellFormed cat) :
      Reachable { statusDir := [], catalogue := cat, trace := [] }
  | create (v : Machine) (hv : Reachable v) (f : String) (c : VerifyImageConfig)
      (env : Env) : Reachable (handleCreate f c env v).state
  | modify (v : Machine) (hv : Reachable v) (f : String) (c : VerifyImageConfig)
      (st : VerifyImageStatus) (env : Env) (hst : v.statusDir.find f = some st) :
      Reachable (handleModify f c st env v).state
  | delete (v : Machine) (hv : Reachable v) (f : String) (st : VerifyImageStatus)
      (hst : v.statusDir.find f = some st) : Reachable (handleDelete f st v)
  | other (v : Machine) (hv : Reachable v) (cat : FileMap FileData)
      (hwf : WellFormed cat)
      (hkeep : ∀ p, underVerified p → cat.find p = v.catalogue.find p) :
      Reachable { v with catalogue := cat }

/-- An environment in which nothing fails. -/
def quietEnv (now : Nat) : Env :=
  { now := now
    mkdirVerifierFails := false
    renameVerifierFails := false
    chmodVerifierFails := false
    openErr := none
    readErr := none
    mkdirVerifiedFails := false
    renameVerifiedFails := false
    chmodVerifiedFails := false }

/-- The digest used in the examples (the SHA-256 of the four bytes `test`). -/
def testSha : String :=
  "9f86d081884c7d659a2feaa0c55ad015a3bf4f1b2b0b822cd15d6c15b0f00a08"

/-- A request to verify the image `img` against `testSha`. -/
def imageVerifyConfig : VerifyImageConfig :=
  { Safename := "img", DownloadURL := "https://example.com/img", ImageSha256 := testSha }

/-- The status file of `imageVerifyConfig`. -/
def imageVerifyStatusFile : String := statusDirname ++ "/img.json"

/-- A Verifier with no status files and one downloaded file in `pending/`,
whose digest is `sha`. -/
def stagedMachine (sha : String) : Machine :=
  { statusDir := []
    catalogue := [(pendingPath testSha "img", { size := 4, sha256 := sha })]
    trace := [] }

/-- A second digest for the examples (the SHA-256 of the three bytes `abc`). -/
def otherSha : String :=
  "ba7816bf8f01cfea414140de5dae2223b00361a396177a9cb410ff61f20015ad"

/-- The request of `imageVerifyConfig` with the claimed digest changed to
`otherSha`. -/
def changedVerifyConfig : VerifyImageConfig :=
  { imageVerifyConfig with ImageSha256 := otherSha }

/-- The Verifier after it has delivered the image of `imageVerifyConfig`, and
the Downloader has staged under `pending/` a new file whose digest is
`otherSha`. -/
def deliveredThenRestaged : Machine :=
  let v := (handleCreate imageVerifyStatusFile imageVerifyConfig (quietEnv 7)
    (stagedMachine testSha)).state
  { v with
    catalogue := v.catalogue.store (pendingPath otherSha "img")
      { size := 3, sha256 := otherSha } }

/-- An environment in which only `os.Open` fails. -/
def openFailsEnv (now : Nat) : Env :=
  { quietEnv now with openErr := some "open: too many open files" }

/-- An environment in which only the read by `io.Copy` fails. -/
def readFailsEnv (now : Nat) : Env :=
  { quietEnv now with readErr := some "read: input/output error" }

/-- A Verifier with no status files and nothing staged in `pending/`: the
request arrives before the Downloader has produced the file. -/
def unstagedMachine : Machine :=
  { statusDir := [], catalogue := [], trace := [] }

end Verifier

/-! ## Arithmetic and file-map lemmas -/

theorem modulus_pos (a : Arch) : 0 < a.modulus := by
  unfold Arch.modulus; positivity

theorem modulus_cast (a : Arch) : ((a.modulus : Nat) : Int) = (2 ^ a.bits : Int) := by
  unfold Arch.modulus; push_cast; rfl

theorem toUint_cast (a : Arch) (x : Int) :
    ((toUint a x : Nat) : Int) = x % (2 ^ a.bits : Int) := by
  unfold toUint
  rw [Int.toNat_of_nonneg (Int.emod_nonneg _ (by have := modulus_pos a; omega)),
    modulus_cast]

theorem toUint_lt (a : Arch) (x : Int) : toUint a x < a.modulus := by
  have h := toUint_cast a x
  have hm := modulus_cast a
  have hp := modulus_pos a
  have hlt : x % (2 ^ a.bits : Int) < (2 ^ a.bits : Int) :=
    Int.emod_lt_of_pos _ (by rw [← hm]; exact_mod_cast hp)
  have : ((toUint a x : Nat) : Int) < ((a.modulus : Nat) : Int) := by
    rw [h, hm]; exact hlt
  exact_mod_cast this

theorem toUint_of_lt (a : Arch) (n : Nat) (h : n < a.modulus) :
    toUint a (n : Int) = n := by
  have hc := toUint_cast a (n : Int)
  rw [← modulus_cast a, Int.emod_eq_of_lt (by positivity) (by exact_mod_cast h)] at hc
  exact_mod_cast hc

theorem uadd_eq (a : Arch) (x y : Nat) : uadd a x y = (x + y) % a.modulus := by
  have hc := toUint_cast a ((x : Int) + (y : Int))
  rw [← modulus_cast a] at hc
  unfold uadd
  exact_mod_cast hc

theorem usub_zero (a : Arch) (x : Nat) (h : x < a.modulus) : usub a x 0 = x := by
  unfold usub
  simpa using toUint_of_lt a x h

theorem usub_uadd_cancel (a : Arch) (x y : Nat) (h : x < a.modulus) :
    usub a (uadd a x y) y = x := by
  have hc : ((usub a (uadd a x y) y : Nat) : Int) = (x : Int) := by
    unfold usub uadd
    rw [toUint_cast, toUint_cast, Int.sub_emod, Int.emod_emod, ← Int.sub_emod,
      ← modulus_cast a]
    rw [show (x : Int) + (y : Int) - (y : Int) = (x : Int) by ring]
    exact Int.emod_eq_of_lt (by positivity) (by exact_mod_cast h)
  exact_mod_cast hc

theorem usub_of_le (a : Arch) (x y : Nat) (hx : x < a.modulus) (hy : y ≤ x) :
    usub a x y = x - y := by
  have hc : ((usub a x y : Nat) : Int) = ((x - y : Nat) : Int) := by
    unfold usub
    rw [toUint_cast, ← modulus_cast a, Nat.cast_sub hy]
    exact Int.emod_eq_of_lt (by omega) (by have : ((x : Nat) : Int) < a.modulus := by exact_mod_cast hx
                                           omega)
  exact_mod_cast hc

theorem toInt_one (a : Arch) : iadd a 0 1 = 1 := by
  cases a <;> decide

theorem find_store_same {α : Type} (m : FileMap α) (p : String) (v : α) :
    (m.store p v).find p = some v := by
  induction m with
  | nil => simp [FileMap.store, FileMap.find]
  | cons e rest ih =>
    obtain ⟨q, x⟩ := e
    by_cases h : q = p
    · simp [FileMap.store, FileMap.find, h]
    · simp [FileMap.store, FileMap.find, h, ih]

theorem find_store_other {α : Type} (m : FileMap α) (p q : String) (v : α)
    (h : p ≠ q) : (m.store p v).find q = m.find q := by
  induction m with
  | nil => simp [FileMap.store, FileMap.find, h]
  | cons e rest ih =>
    obtain ⟨r, x⟩ := e
    by_cases hr : r = p
    · subst hr
      simp [FileMap.store, FileMap.find, h]
    · by_cases hq : r = q
      · subst hq
        simp [FileMap.store, FileMap.find, hr]
      · simp [FileMap.store, FileMap.find, hr, hq, ih]

theorem find_remove_same {α : Type} (m : FileMap α) (p : String) :
    (m.remove p).find p = none := by
  induction m with
  | nil => simp [FileMap.remove, FileMap.find]
  | cons e rest ih =>
    obtain ⟨q, x⟩ := e
    by_cases h : q = p
    · simp [FileMap.remove, h, ih]
    · simp [FileMap.remove, FileMap.find, h, ih]

theorem find_remove_other {α : Type} (m : FileMap α) (p q : String)
    (h : p ≠ q) : (m.remove p).find q = m.find q := by
  induction m with
  | nil => simp [FileMap.remove, FileMap.find]
  | cons e rest ih =>
    obtain ⟨r, x⟩ := e
    by_cases hr : r = p
    · subst hr
      simp [FileMap.remove, FileMap.find, h, ih]
    · by_cases hq : r = q
      · subst hq
        simp [FileMap.remove, FileMap.find, hr]
      · simp [FileMap.remove, FileMap.find, hr, hq, ih]

theorem wrap64_of_lt (x : Int) (h0 : 0 ≤ x) (h : x < 2 ^ 63) : wrap64 x = x := by
  unfold wrap64
  omega

theorem kibOfBytes_eq (a : Arch) (b : Nat) (hb : b + 1023 < 2 ^ 63)
    (hk : (b + 1023) / 1024 < a.modulus) :
    kibOfBytes a (b : Int) = (b + 1023) / 1024 := by
  unfold kibOfBytes
  rw [wrap64_of_lt _ (by positivity) (by exact_mod_cast hb)]
  rw [Int.tdiv_eq_ediv (by positivity) (by norm_num)]
  have : ((b : Int) + 1023) / 1024 = (((b + 1023) / 1024 : Nat) : Int) := by
    push_cast; rfl
  rw [this]
  exact toUint_of_lt a _ hk

theorem ceil_kib (b : Nat) : ⌈(b : ℚ) / 1024⌉₊ = (b + 1023) / 1024 := by
  apply le_antisymm
  · rw [Nat.ceil_le, div_le_iff₀ (by norm_num)]
    have : b ≤ (b + 1023) / 1024 * 1024 := by omega
    exact_mod_cast this
  · have h := Nat.le_ceil ((b : ℚ) / 1024)
    rw [div_le_iff₀ (by norm_num)] at h
    have h2 : b ≤ ⌈(b : ℚ) / 1024⌉₊ * 1024 := by exact_mod_cast h
    omega

theorem find_mem {α : Type} (m : FileMap α) (p : String) (x : α)
    (h : m.find p = some x) : (p, x) ∈ m := by
  induction m with
  | nil => simp [FileMap.find] at h
  | cons e rest ih =>
    obtain ⟨q, y⟩ := e
    by_cases hq : q = p
    · subst hq
      simp [FileMap.find] at h
      subst h
      exact List.mem_cons_self _ _
    · simp [FileMap.find, hq] at h
      exact List.mem_cons_of_mem _ (ih h)

theorem mem_store {α : Type} (m : FileMap α) (p : String) (v : α) (e : String × α)
    (h : e ∈ m.store p v) : e ∈ m ∨ e = (p, v) := by
  induction m with
  | nil =>
    simp [FileMap.store] at h
    exact Or.inr h
  | cons e2 rest ih =>
    obtain ⟨q, y⟩ := e2
    by_cases hq : q = p
    · subst hq
      simp [FileMap.store] at h
      rcases h with h | h
      · exact Or.inr h
      · exact Or.inl (List.mem_cons_of_mem _ h)
    · simp [FileMap.store, hq] at h
      rcases h with h | h
      · exact Or.inl (by rw [h]; exact List.mem_cons_self _ _)
      · rcases ih h with h2 | h2
        · exact Or.inl (List.mem_cons_of_mem _ h2)
        · exact Or.inr h2

theorem mem_remove {α : Type} (m : FileMap α) (p : String) (e : String × α)
    (h : e ∈ m.remove p) : e ∈ m := by
  induction m with
  | nil => simp [FileMap.remove] at h
  | cons e2 rest ih =>
    obtain ⟨q, y⟩ := e2
    by_cases hq : q = p
    · subst hq
      simp [FileMap.remove] at h
      exact List.mem_cons_of_mem _ (ih h)
    · simp [FileMap.remove, hq] at h
      rcases h with h | h
      · rw [h]; exact List.mem_cons_self _ _
      · exact List.mem_cons_of_mem _ (ih h)

theorem find_remove_some {α : Type} (m : FileMap α) (p q : String) (x : α)
    (h : (m.remove p).find q = some x) : p ≠ q ∧ m.find q = some x := by
  by_cases hpq : p = q
  · subst hpq
    rw [find_remove_same] at h
    cases h
  · rw [find_remove_other _ _ _ hpq] at h
    exact ⟨hpq, h⟩

theorem store_of_find {α : Type} (m : FileMap α) (p : String) (v : α)
    (h : m.find p = some v) : m.store p v = m := by
  induction m with
  | nil => simp [FileMap.find] at h
  | cons e rest ih =>
    obtain ⟨q, x⟩ := e
    by_cases hq : q = p
    · subst hq
      simp [FileMap.find] at h
      subst h
      simp [FileMap.store]
    · simp [FileMap.find, hq] at h
      simp [FileMap.store, hq, ih h]

/-! ## Downloader: the ledger equation -/

namespace Downloader

theorem balanced_update (a : Arch) (d : Machine) :
    LedgerOk a (updateRemainingSpace a d) := by
  refine ⟨?_, rfl⟩
  simp only [Balanced, updateRemainingSpace, writeGlobalStatus, usub, toUint_cast]
  rw [Int.sub_emod, Int.emod_emod, ← Int.sub_emod]

theorem ledgerOk_write (a : Arch) (s : DownloaderStatus) (f : String) (d : Machine)
    (h : LedgerOk a d) : LedgerOk a (writeDownloaderStatus s f d) := h

theorem ledgerOk_doDelete (a : Arch) (f : String) (s : DownloaderStatus) (d : Machine) :
    LedgerOk a (doDelete a f s d).2 :=
  ledgerOk_write a _ _ _ (balanced_update a _)

theorem ledgerOk_createFailed (a : Arch) (f : String) (s : DownloaderStatus)
    (e : String) (env : Env) (d : Machine) :
    LedgerOk a (createFailed a f s e env d).2 :=
  ledgerOk_write a _ _ _ (ledgerOk_doDelete a f s d)

theorem ledgerOk_doCreate (a : Arch) (f : String) (c : DownloaderConfig)
    (s : DownloaderStatus) (env : Env) (d : Machine) :
    LedgerOk a (doCreate a f c s env d).2 := by
  unfold doCreate
  dsimp only
  repeat' split
  · exact ledgerOk_createFailed _ _ _ _ _ _
  · exact ledgerOk_createFailed _ _ _ _ _ _
  · exact ledgerOk_createFailed _ _ _ _ _ _
  · exact ledgerOk_write a _ _ _ (balanced_update a _)

theorem ledgerOk_handleCreate (a : Arch) (f : String) (c : DownloaderConfig)
    (env : Env) (d : Machine) (h : LedgerOk a d) :
    LedgerOk a (handleCreate a f c env d) := by
  unfold handleCreate
  dsimp only
  repeat' split
  · exact h
  · exact ledgerOk_write a _ _ _ (balanced_update a _)
  · exact ledgerOk_doCreate _ _ _ _ _ _

theorem ledgerOk_handleModify (a : Arch) (f : String) (c : DownloaderConfig)
    (s : DownloaderStatus) (env : Env) (d : Machine) (h : LedgerOk a d) :
    LedgerOk a (handleModify a f c s env d) := by
  unfold handleModify
  dsimp only
  repeat' split
  · exact h
  · exact ledgerOk_doCreate _ _ _ _ _ _
  · exact ledgerOk_write a _ _ _ (ledgerOk_doCreate _ _ _ _ _ _)
  · exact ledgerOk_doDelete _ _ _ _
  · exact h

theorem ledgerOk_removeStatusFile (a : Arch) (f : String) (d : Machine)
    (h : LedgerOk a d) : LedgerOk a (removeStatusFile f d) := h

theorem ledgerOk_handleDelete (a : Arch) (f : String) (s : DownloaderStatus)
    (d : Machine) : LedgerOk a (handleDelete a f s d) :=
  ledgerOk_removeStatusFile a _ _
    (ledgerOk_write a _ _ _ (ledgerOk_doDelete a f _ _))

theorem ledgerOk_runCalls (a : Arch) (calls : List Call) (d : Machine)
    (h : LedgerOk a d) : LedgerOk a (runCalls a calls d) := by
  induction calls generalizing d with
  | nil => exact h
  | cons c rest ih =>
    apply ih
    cases c with
    | create f c env => exact ledgerOk_handleCreate a f c env d h
    | modify f c s env => exact ledgerOk_handleModify a f c s env d h
    | delete f s => exact ledgerOk_handleDelete a f s d

/-- C1: whatever the process state `d0` at start-up, `handleInit` returns (when
the configuration file is read), and after it and after any further sequence
of `handleCreate`, `handleModify` and `handleDelete` calls, with any configs,
statuses and fetch outcomes, the global status (the process variable and the
file written from it) satisfies
`RemainingSpace = MaxSpace - UsedSpace - ReservedSpace` modulo `2 ^ w`. -/
theorem c1_remaining_space_equation (a : Arch) (config : GlobalDownloadConfig)
    (locations : List DirEntry) (d0 : Machine) :
    ∃ d1, handleInit a (some config) locations d0 = some d1 ∧
      LedgerOk a d1 ∧ ∀ calls : List Call, LedgerOk a (runCalls a calls d1) := by
  refine ⟨_, rfl, balanced_update a _, fun calls => ?_⟩
  exact ledgerOk_runCalls a calls _ (balanced_update a _)

/-! ## Downloader: what the handlers compute -/

theorem effectsSince_append (d1 d2 : Machine) (l : List Effect)
    (h : d2.trace = d1.trace ++ l) : effectsSince d1 d2 = l := by
  simp [effectsSince, h]

theorem noSpaceError_contains (m r : Nat) :
    ∃ pre post, noSpaceError m r = pre ++ "exceed remaining space" ++ post := by
  refine ⟨"Would ", " " ++ toString m ++ " vs " ++ toString r ++ "\n", ?_⟩
  unfold noSpaceError
  simp only [String.append_assoc]
  rfl

theorem handleCreate_denied (a : Arch) (f : String) (c : DownloaderConfig) (env : Env)
    (d : Machine) (h : c.MaxSize ≥ d.globalStatus.RemainingSpace) :
    handleCreate a f c env d =
      writeDownloaderStatus
        (recordFailure a (statusOf c true)
          (noSpaceError c.MaxSize d.globalStatus.RemainingSpace) env.now)
        f (writeDownloaderStatus (statusOf c true) f d) := by
  unfold handleCreate
  dsimp only
  rw [if_pos (show c.MaxSize ≥
    (writeDownloaderStatus (statusOf c true) f d).globalStatus.RemainingSpace from h)]
  rfl

theorem handleCreate_admitted (a : Arch) (f : String) (c : DownloaderConfig) (env : Env)
    (d : Machine) (h : c.MaxSize < d.globalStatus.RemainingSpace) :
    handleCreate a f c env d =
      if c.RefCount = 0 then
        writeDownloaderStatus
          (recordFailure a (reservedStatus c) (deferredError c.DownloadURL) env.now) f
          (afterReservation a f c d)
      else (doCreate a f c (reservedStatus c) env (afterReservation a f c d)).2 := by
  unfold handleCreate
  dsimp only
  rw [if_neg (show ¬ c.MaxSize ≥
    (writeDownloaderStatus (statusOf c true) f d).globalStatus.RemainingSpace from
      Nat.not_le.mpr h)]
  rfl

theorem doWget_err (url dest : String) (env : Env) (d : Machine) :
    (doWget url dest env d).1 = env.wget.err := by
  unfold doWget
  split <;> rfl

theorem afterWget_find (f : String) (c : DownloaderConfig) (s : DownloaderStatus)
    (env : Env) (d : Machine) :
    (afterWget f c s env d).catalogue.find (destOf c) = fetched env (destOf c) d := by
  unfold afterWget doWget fetched
  split
  · exact find_store_same _ _ _
  · rfl

theorem afterWget_globalStatus (f : String) (c : DownloaderConfig) (s : DownloaderStatus)
    (env : Env) (d : Machine) :
    (afterWget f c s env d).globalStatus = d.globalStatus := by
  unfold afterWget doWget
  split <;> rfl

theorem doCreate_eq (a : Arch) (f : String) (c : DownloaderConfig)
    (s : DownloaderStatus) (env : Env) (d : Machine) :
    doCreate a f c s env d =
      match env.wget.err with
      | some e =>
        createFailed a f { s with State := SwState.DOWNLOAD_STARTED } e env
          (afterWget f c s env d)
      | none =>
        match fetched env (destOf c) d with
        | none =>
          createFailed a f { s with State := SwState.DOWNLOAD_STARTED }
            (statError (destOf c)) env (afterWget f c s env d)
        | some info =>
          if kibOfBytes a (info.size : Int) > c.MaxSize then
            createFailed a f
              { s with
                State := SwState.DOWNLOAD_STARTED
                Size := kibOfBytes a (info.size : Int) }
              (sizeError (kibOfBytes a (info.size : Int)) c.MaxSize c.DownloadURL) env
              (afterWget f c s env d)
          else
            (downloadedStatus a s info env.now,
              writeDownloaderStatus (downloadedStatus a s info env.now) f
                (updateRemainingSpace a
                  (((afterWget f c s env d).setReservedSpace
                    (usub a d.globalStatus.ReservedSpace s.ReservedSpace)).setUsedSpace
                    (uadd a d.globalStatus.UsedSpace (kibOfBytes a (info.size : Int)))))) := by
  have h1 := doWget_err c.DownloadURL (destOf c) env
    (writeDownloaderStatus { s with State := SwState.DOWNLOAD_STARTED } f d)
  have h2 := afterWget_find f c s env d
  have h3 := afterWget_globalStatus f c s env d
  unfold afterWget destOf at h2 h3
  unfold destOf at h1
  unfold doCreate afterWget destOf
  dsimp only
  rw [h1, h2]
  cases env.wget.err with
  | some e => rfl
  | none =>
    dsimp only
    cases fetched env (imgCatalogDirname ++ "/pending/" ++ c.ImageSha256 ++ "/" ++ c.Safename) d with
    | none => rfl
    | some info =>
      dsimp only
      split
      · rfl
      · simp only [Machine.setReservedSpace, Machine.setUsedSpace, h3]
        rfl

theorem doDelete_status (a : Arch) (f : String) (s : DownloaderStatus) (d : Machine) :
    (doDelete a f s d).1 = { s with State := SwState.INITIAL, Size := 0 } := rfl

theorem doDelete_find (a : Arch) (f : String) (s : DownloaderStatus) (d : Machine) :
    (doDelete a f s d).2.statusDir.find f = some (doDelete a f s d).1 :=
  find_store_same _ _ _

theorem doDelete_reserved (a : Arch) (f : String) (s : DownloaderStatus) (d : Machine) :
    (doDelete a f s d).2.globalStatus.ReservedSpace = d.globalStatus.ReservedSpace := by
  unfold doDelete
  dsimp only
  split <;> split <;> rfl

theorem doDelete_used (a : Arch) (f : String) (s : DownloaderStatus) (d : Machine) :
    (doDelete a f s d).2.globalStatus.UsedSpace =
      if s.Size > d.globalStatus.UsedSpace then 0
      else usub a d.globalStatus.UsedSpace s.Size := by
  unfold doDelete
  dsimp only
  by_cases hfile : (d.catalogue.find (imgCatalogDirname ++ "/pending/" ++ s.Safename)).isSome
  · by_cases hsize : s.Size > d.globalStatus.UsedSpace
    · simp [hfile, hsize, removeFile, Machine.setUsedSpace, updateRemainingSpace,
        writeGlobalStatus, writeDownloaderStatus]
    · simp [hfile, hsize, removeFile, Machine.setUsedSpace, updateRemainingSpace,
        writeGlobalStatus, writeDownloaderStatus]
  · by_cases hsize : s.Size > d.globalStatus.UsedSpace
    · simp [hfile, hsize, Machine.setUsedSpace, updateRemainingSpace,
        writeGlobalStatus, writeDownloaderStatus]
    · simp [hfile, hsize, Machine.setUsedSpace, updateRemainingSpace,
        writeGlobalStatus, writeDownloaderStatus]

theorem createFailed_status (a : Arch) (f : String) (s : DownloaderStatus) (e : String)
    (env : Env) (d : Machine) :
    (createFailed a f s e env d).1 =
      recordFailure a { s with State := SwState.INITIAL, Size := 0 } e env.now := rfl

theorem createFailed_find (a : Arch) (f : String) (s : DownloaderStatus) (e : String)
    (env : Env) (d : Machine) :
    (createFailed a f s e env d).2.statusDir.find f = some (createFailed a f s e env d).1 :=
  find_store_same _ _ _

theorem createFailed_reserved (a : Arch) (f : String) (s : DownloaderStatus) (e : String)
    (env : Env) (d : Machine) :
    (createFailed a f s e env d).2.globalStatus.ReservedSpace =
      d.globalStatus.ReservedSpace :=
  doDelete_reserved a f s d

theorem createFailed_used (a : Arch) (f : String) (s : DownloaderStatus) (e : String)
    (env : Env) (d : Machine) :
    (createFailed a f s e env d).2.globalStatus.UsedSpace =
      if s.Size > d.globalStatus.UsedSpace then 0
      else usub a d.globalStatus.UsedSpace s.Size :=
  doDelete_used a f s d

theorem Continues.refl (d : Machine) : Continues d d := ⟨[], by simp⟩

theorem Continues.trans {d1 d2 d3 : Machine} (h1 : Continues d1 d2)
    (h2 : Continues d2 d3) : Continues d1 d3 := by
  obtain ⟨l1, e1⟩ := h1
  obtain ⟨l2, e2⟩ := h2
  exact ⟨l1 ++ l2, by rw [e2, e1, List.append_assoc]⟩

theorem continues_write (s : DownloaderStatus) (f : String) (d : Machine) :
    Continues d (writeDownloaderStatus s f d) := ⟨_, rfl⟩

theorem continues_update (a : Arch) (d : Machine) :
    Continues d (updateRemainingSpace a d) := ⟨_, rfl⟩

theorem continues_setUsed (d : Machine) (n : Nat) :
    Continues d (d.setUsedSpace n) := ⟨[], by simp [Machine.setUsedSpace]⟩

theorem continues_setReserved (d : Machine) (n : Nat) :
    Continues d (d.setReservedSpace n) := ⟨[], by simp [Machine.setReservedSpace]⟩

theorem continues_doDelete (a : Arch) (f : String) (s : DownloaderStatus) (d : Machine) :
    Continues d (doDelete a f s d).2 := by
  unfold doDelete
  dsimp only
  refine Continues.trans ?_ (continues_write _ _ _)
  refine Continues.trans ?_ (continues_update _ _)
  split <;> split <;> first | exact ⟨_, rfl⟩ | exact Continues.refl _

theorem continues_createFailed (a : Arch) (f : String) (s : DownloaderStatus)
    (e : String) (env : Env) (d : Machine) :
    Continues d (createFailed a f s e env d).2 :=
  Continues.trans (continues_doDelete a f s d) (continues_write _ _ _)

theorem continues_afterWget (f : String) (c : DownloaderConfig) (s : DownloaderStatus)
    (env : Env) (d : Machine) : Continues d (afterWget f c s env d) := by
  refine Continues.trans (continues_write { s with State := SwState.DOWNLOAD_STARTED } f d) ?_
  unfold afterWget doWget
  split <;> exact ⟨_, rfl⟩

theorem continues_doCreate (a : Arch) (f : String) (c : DownloaderConfig)
    (s : DownloaderStatus) (env : Env) (d : Machine) :
    Continues d (doCreate a f c s env d).2 := by
  rw [doCreate_eq]
  refine Continues.trans (continues_afterWget f c s env d) ?_
  split
  · exact continues_createFailed _ _ _ _ _ _
  · split
    · exact continues_createFailed _ _ _ _ _ _
    · split
      · exact continues_createFailed _ _ _ _ _ _
      · exact ((continues_setReserved _ _).trans (continues_setUsed _ _)).trans
          ((continues_update a _).trans (continues_write _ _ _))

/-- C4: when `MaxSize ≥ RemainingSpace` (equality included), `handleCreate`
fails without fetching: it only writes the status file, twice, and the status
it leaves has `State = INITIAL`, `PendingAdd = false`, `RetryCount = 1`,
`ReservedSpace = 0` and a `LastErr` containing "exceed remaining space"; the
global status, its file and the catalogue are unchanged. -/
theorem c4_admission_denied (a : Arch) (statusFilename : String)
    (config : DownloaderConfig) (env : Env) (d : Machine)
    (h : config.MaxSize ≥ d.globalStatus.RemainingSpace) :
    ∃ st,
      statusAt statusFilename (handleCreate a statusFilename config env d) = some st ∧
      st.State = SwState.INITIAL ∧ st.PendingAdd = false ∧ st.RetryCount = 1 ∧
      st.ReservedSpace = 0 ∧
      (∃ pre post, st.LastErr = pre ++ "exceed remaining space" ++ post) ∧
      (handleCreate a statusFilename config env d).globalStatus = d.globalStatus ∧
      (handleCreate a statusFilename config env d).globalStatusFile = d.globalStatusFile ∧
      (handleCreate a statusFilename config env d).catalogue = d.catalogue ∧
      effectsSince d (handleCreate a statusFilename config env d) =
        [Effect.wroteStatus statusFilename (statusOf config true),
         Effect.wroteStatus statusFilename st] := by
  rw [handleCreate_denied a statusFilename config env d h]
  refine ⟨_, find_store_same _ _ _, rfl, rfl, toInt_one a, rfl,
    noSpaceError_contains _ _, rfl, rfl, rfl, ?_⟩
  apply effectsSince_append
  simp [writeDownloaderStatus]

/-- Witness of C4: the scenario `MaxSpace = 1024`, `MaxSize = 1024` on an empty
ledger. -/
theorem c4_admission_denied_witness :
    (imageConfig 1024 1).MaxSize ≥ emptyLedger1024.globalStatus.RemainingSpace ∧
    ∃ st,
      statusAt imageStatusFile
        (handleCreate Arch.bits64 imageStatusFile (imageConfig 1024 1) (fetchOk 4096 7)
          emptyLedger1024) = some st ∧
      st.State = SwState.INITIAL ∧ st.PendingAdd = false ∧ st.RetryCount = 1 ∧
      st.ReservedSpace = 0 ∧
      (∃ pre post, st.LastErr = pre ++ "exceed remaining space" ++ post) ∧
      (handleCreate Arch.bits64 imageStatusFile (imageConfig 1024 1) (fetchOk 4096 7)
          emptyLedger1024).globalStatus = emptyLedger1024.globalStatus ∧
      (handleCreate Arch.bits64 imageStatusFile (imageConfig 1024 1) (fetchOk 4096 7)
          emptyLedger1024).globalStatusFile = emptyLedger1024.globalStatusFile ∧
      (handleCreate Arch.bits64 imageStatusFile (imageConfig 1024 1) (fetchOk 4096 7)
          emptyLedger1024).catalogue = emptyLedger1024.catalogue ∧
      effectsSince emptyLedger1024
        (handleCreate Arch.bits64 imageStatusFile (imageConfig 1024 1) (fetchOk 4096 7)
          emptyLedger1024) =
        [Effect.wroteStatus imageStatusFile (statusOf (imageConfig 1024 1) true),
         Effect.wroteStatus imageStatusFile st] :=
  ⟨by decide,
    c4_admission_denied Arch.bits64 imageStatusFile (imageConfig 1024 1) (fetchOk 4096 7)
      emptyLedger1024 (by decide)⟩

theorem afterReservation_trace (a : Arch) (f : String) (c : DownloaderConfig) (d : Machine) :
    (afterReservation a f c d).trace =
      d.trace ++ [Effect.wroteStatus f (statusOf c true),
        Effect.wroteGlobal (afterReservation a f c d).globalStatus] := by
  simp [afterReservation, updateRemainingSpace, writeGlobalStatus, writeDownloaderStatus,
    Machine.setReservedSpace]

theorem handleCreate_admitted_effects (a : Arch) (f : String) (c : DownloaderConfig)
    (env : Env) (d : Machine) (h : c.MaxSize < d.globalStatus.RemainingSpace) :
    ∃ l, effectsSince d (handleCreate a f c env d) =
      Effect.wroteStatus f (statusOf c true) ::
        Effect.wroteGlobal (afterReservation a f c d).globalStatus :: l := by
  have hc : Continues (afterReservation a f c d) (handleCreate a f c env d) := by
    rw [handleCreate_admitted a f c env d h]
    split
    · exact continues_write _ _ _
    · exact continues_doCreate _ _ _ _ _ _
  obtain ⟨l, hl⟩ := hc
  refine ⟨l, effectsSince_append _ _ _ ?_⟩
  rw [hl, afterReservation_trace]
  simp

theorem reserves_iff (a : Arch) (f : String) (c : DownloaderConfig) (env : Env)
    (d : Machine) :
    Reserves a f c env d ↔ c.MaxSize < d.globalStatus.RemainingSpace := by
  unfold Reserves
  constructor
  · intro hres
    by_contra hlt
    have hden : c.MaxSize ≥ d.globalStatus.RemainingSpace := Nat.not_lt.mp hlt
    have he : effectsSince d (handleCreate a f c env d) =
        [Effect.wroteStatus f (statusOf c true),
          Effect.wroteStatus f (recordFailure a (statusOf c true)
            (noSpaceError c.MaxSize d.globalStatus.RemainingSpace) env.now)] := by
      apply effectsSince_append
      rw [handleCreate_denied a f c env d hden]
      simp [writeDownloaderStatus]
    rw [he] at hres
    simp [firstGlobalWrite] at hres
  · intro hlt
    obtain ⟨l, hl⟩ := handleCreate_admitted_effects a f c env d hlt
    rw [hl]
    simp [firstGlobalWrite, afterReservation, updateRemainingSpace, writeGlobalStatus,
      writeDownloaderStatus, Machine.setReservedSpace]

/-- C5 (counterexample): with `MaxSpace = 1024` and `MaxSize = 1024` on an empty
ledger the request fits (`MaxSize ≤ RemainingSpace`), yet `handleCreate` makes
no reservation: it writes no global status and `ReservedSpace` stays 0. -/
theorem c5_counterexample :
    (imageConfig 1024 1).MaxSize ≤ emptyLedger1024.globalStatus.RemainingSpace ∧
    ¬ Reserves Arch.bits64 imageStatusFile (imageConfig 1024 1) (fetchOk 4096 7)
        emptyLedger1024 ∧
    (handleCreate Arch.bits64 imageStatusFile (imageConfig 1024 1) (fetchOk 4096 7)
        emptyLedger1024).globalStatus.ReservedSpace = 0 ∧
    (handleCreate Arch.bits64 imageStatusFile (imageConfig 1024 1) (fetchOk 4096 7)
        emptyLedger1024).globalStatus.ReservedSpace ≠
      emptyLedger1024.globalStatus.ReservedSpace + (imageConfig 1024 1).MaxSize := by
  decide

/-- C5 (amended): `handleCreate` makes the reservation (the first global status
it writes has `ReservedSpace` raised by `MaxSize`) if and only if
`MaxSize < RemainingSpace`, strictly; otherwise it fails with the no-space
error and leaves the global status unchanged. -/
theorem c5_reserves_iff_strictly_less (a : Arch) (statusFilename : String)
    (config : DownloaderConfig) (env : Env) (d : Machine) :
    (Reserves a statusFilename config env d ↔
      config.MaxSize < d.globalStatus.RemainingSpace) ∧
    (config.MaxSize < d.globalStatus.RemainingSpace ∨
      ∃ st,
        statusAt statusFilename (handleCreate a statusFilename config env d) = some st ∧
        st.LastErr = noSpaceError config.MaxSize d.globalStatus.RemainingSpace ∧
        (handleCreate a statusFilename config env d).globalStatus = d.globalStatus) := by
  refine ⟨reserves_iff a statusFilename config env d, ?_⟩
  by_cases h : config.MaxSize < d.globalStatus.RemainingSpace
  · exact Or.inl h
  · right
    rw [handleCreate_denied a statusFilename config env d (Nat.not_lt.mp h)]
    exact ⟨_, find_store_same _ _ _, rfl, rfl⟩

theorem downloadedStatus_size (a : Arch) (s : DownloaderStatus) (file : FileData)
    (now : Nat) :
    (downloadedStatus a s file now).Size = kibOfBytes a (file.size : Int) := by
  simp only [downloadedStatus]

theorem handleCreate_success (a : Arch) (f : String) (c : DownloaderConfig) (env : Env)
    (d : Machine) (file : FileData)
    (hadm : c.MaxSize < d.globalStatus.RemainingSpace) (href : c.RefCount ≠ 0)
    (herr : env.wget.err = none) (hfile : fetched env (destOf c) d = some file)
    (hsize : kibOfBytes a (file.size : Int) ≤ c.MaxSize) :
    handleCreate a f c env d =
      writeDownloaderStatus (downloadedStatus a (reservedStatus c) file env.now) f
        (updateRemainingSpace a
          (((afterWget f c (reservedStatus c) env (afterReservation a f c d)).setReservedSpace
            (usub a (uadd a d.globalStatus.ReservedSpace c.MaxSize) c.MaxSize)).setUsedSpace
            (uadd a d.globalStatus.UsedSpace (kibOfBytes a (file.size : Int))))) := by
  have hf : fetched env (destOf c) (afterReservation a f c d) = some file := hfile
  rw [handleCreate_admitted a f c env d hadm, if_neg href, doCreate_eq, herr]
  dsimp only
  rw [hf]
  dsimp only
  rw [if_neg (Nat.not_lt.mpr hsize)]
  rfl

/-- C6: when `handleCreate` passes admission with `RefCount > 0` and the fetch
succeeds with a file of `Size` KiB, `Size ≤ MaxSize`, the status it leaves has
`State = DOWNLOADED`, `PendingAdd = false`, `ReservedSpace = 0` and that
`Size`; the global `ReservedSpace` is what it was before the call and the
global `UsedSpace` is the prior value plus `Size` (in `uint` arithmetic). -/
theorem c6_reservation_becomes_used (a : Arch) (statusFilename : String)
    (config : DownloaderConfig) (env : Env) (d : Machine) (file : FileData)
    (hadm : config.MaxSize < d.globalStatus.RemainingSpace)
    (href : config.RefCount > 0)
    (herr : env.wget.err = none)
    (hfile : fetched env (destOf config) d = some file)
    (hsize : kibOfBytes a (file.size : Int) ≤ config.MaxSize)
    (hres : d.globalStatus.ReservedSpace < a.modulus) :
    ∃ st,
      statusAt statusFilename (handleCreate a statusFilename config env d) = some st ∧
      st.State = SwState.DOWNLOADED ∧ st.PendingAdd = false ∧ st.ReservedSpace = 0 ∧
      st.Size = kibOfBytes a (file.size : Int) ∧
      (handleCreate a statusFilename config env d).globalStatus.ReservedSpace =
        d.globalStatus.ReservedSpace ∧
      (handleCreate a statusFilename config env d).globalStatus.UsedSpace =
        (d.globalStatus.UsedSpace + st.Size) % a.modulus := by
  rw [handleCreate_success a statusFilename config env d file hadm (Nat.pos_iff_ne_zero.mp href)
    herr hfile hsize]
  refine ⟨downloadedStatus a (reservedStatus config) file env.now, find_store_same _ _ _,
    rfl, rfl, rfl, downloadedStatus_size _ _ _ _, ?_, ?_⟩
  · simp only [writeDownloaderStatus, updateRemainingSpace, writeGlobalStatus,
      Machine.setUsedSpace, Machine.setReservedSpace]
    exact usub_uadd_cancel a _ _ hres
  · simp only [writeDownloaderStatus, updateRemainingSpace, writeGlobalStatus,
      Machine.setUsedSpace, Machine.setReservedSpace, downloadedStatus_size]
    exact uadd_eq a _ _

/-- Witness of C6: a 4096-byte file fetched for a request of at most 60 KiB on
an empty ledger of 1024 KiB. -/
theorem c6_reservation_becomes_used_witness :
    ∃ st,
      statusAt imageStatusFile
        (handleCreate Arch.bits64 imageStatusFile (imageConfig 60 1) (fetchOk 4096 7)
          emptyLedger1024) = some st ∧
      st.State = SwState.DOWNLOADED ∧ st.PendingAdd = false ∧ st.ReservedSpace = 0 ∧
      st.Size = kibOfBytes Arch.bits64 (((4096 : Nat) : Int)) ∧
      (handleCreate Arch.bits64 imageStatusFile (imageConfig 60 1) (fetchOk 4096 7)
          emptyLedger1024).globalStatus.ReservedSpace =
        emptyLedger1024.globalStatus.ReservedSpace ∧
      (handleCreate Arch.bits64 imageStatusFile (imageConfig 60 1) (fetchOk 4096 7)
          emptyLedger1024).globalStatus.UsedSpace =
        (emptyLedger1024.globalStatus.UsedSpace + st.Size) % Arch.bits64.modulus :=
  c6_reservation_becomes_used Arch.bits64 imageStatusFile (imageConfig 60 1) (fetchOk 4096 7)
    emptyLedger1024 { size := 4096, sha256 := "0f2c" } (by decide) (by decide) (by decide)
    (by decide) (by decide) (by decide)

/-- C7 (amended): for a fetched file of `b` bytes with `b + 1023 < 2 ^ 63` (the
range of `int64`) and `ceil(b / 1024) < 2 ^ w` (the range of `uint`), the size
`doCreate` computes is `ceil(b / 1024)` KiB; the download is accepted
(`State = DOWNLOADED`) exactly when that value is `≤ MaxSize`, and then the
status records it as `Size`; otherwise the status is back in `INITIAL` with
`Size = 0` and the computed size reported in `LastErr`. -/
theorem c7_size_is_ceiling_kib (a : Arch) (statusFilename : String)
    (config : DownloaderConfig) (status : DownloaderStatus) (env : Env) (d : Machine)
    (file : FileData)
    (herr : env.wget.err = none)
    (hfile : fetched env (destOf config) d = some file)
    (hb : file.size + 1023 < 2 ^ 63)
    (hk : (file.size + 1023) / 1024 < a.modulus) :
    kibOfBytes a (file.size : Int) = ⌈(file.size : ℚ) / 1024⌉₊ ∧
    ((doCreate a statusFilename config status env d).1.State = SwState.DOWNLOADED ↔
      ⌈(file.size : ℚ) / 1024⌉₊ ≤ config.MaxSize) ∧
    (doCreate a statusFilename config status env d).1.State =
      (if ⌈(file.size : ℚ) / 1024⌉₊ ≤ config.MaxSize then SwState.DOWNLOADED
       else SwState.INITIAL) ∧
    (doCreate a statusFilename config status env d).1.Size =
      (if ⌈(file.size : ℚ) / 1024⌉₊ ≤ config.MaxSize then ⌈(file.size : ℚ) / 1024⌉₊
       else 0) ∧
    (doCreate a statusFilename config status env d).1.LastErr =
      (if ⌈(file.size : ℚ) / 1024⌉₊ ≤ config.MaxSize then status.LastErr
       else sizeError ⌈(file.size : ℚ) / 1024⌉₊ config.MaxSize config.DownloadURL) ∧
    statusAt statusFilename (doCreate a statusFilename config status env d).2 =
      some (doCreate a statusFilename config status env d).1 := by
  have hkib : kibOfBytes a (file.size : Int) = ⌈(file.size : ℚ) / 1024⌉₊ := by
    rw [kibOfBytes_eq a file.size hb hk, ceil_kib]
  refine ⟨hkib, ?_⟩
  rw [doCreate_eq, herr]
  dsimp only
  rw [hfile]
  dsimp only
  rw [hkib]
  by_cases hle : ⌈(file.size : ℚ) / 1024⌉₊ ≤ config.MaxSize
  · rw [if_neg (Nat.not_lt.mpr hle)]
    simp only [hle, if_true, iff_true]
    refine ⟨?_, ?_, ?_, ?_, find_store_same _ _ _⟩
    · simp only [downloadedStatus]
    · simp only [downloadedStatus]
    · simp only [downloadedStatus, hkib]
    · simp only [downloadedStatus]
  · rw [if_pos (Nat.not_le.mp hle)]
    simp only [hle, if_false, iff_false, createFailed_status]
    refine ⟨?_, ?_, ?_, ?_, createFailed_find _ _ _ _ _ _⟩
    · simp [recordFailure]
    · simp only [recordFailure]
    · simp only [recordFailure]
    · simp only [recordFailure]

/-- Witness of C7: the happy-path scenario, a 1,500,000-byte file with
`MaxSize = 2048`, gives `Size = 1465` and `State = DOWNLOADED`. -/
theorem c7_size_is_ceiling_kib_witness :
    ((fetchOk 1500000 7).wget.err = none ∧
      fetched (fetchOk 1500000 7) (destOf (imageConfig 2048 1)) ledgerGiB =
        some { size := 1500000, sha256 := "0f2c" }) ∧
    (kibOfBytes Arch.bits64 ((1500000 : Nat) : Int) = ⌈((1500000 : Nat) : ℚ) / 1024⌉₊ ∧
      (happyRun.1.State = SwState.DOWNLOADED ↔
        ⌈((1500000 : Nat) : ℚ) / 1024⌉₊ ≤ (imageConfig 2048 1).MaxSize) ∧
      happyRun.1.State =
        (if ⌈((1500000 : Nat) : ℚ) / 1024⌉₊ ≤ (imageConfig 2048 1).MaxSize then
          SwState.DOWNLOADED
         else SwState.INITIAL) ∧
      happyRun.1.Size =
        (if ⌈((1500000 : Nat) : ℚ) / 1024⌉₊ ≤ (imageConfig 2048 1).MaxSize then
          ⌈((1500000 : Nat) : ℚ) / 1024⌉₊
         else 0) ∧
      happyRun.1.LastErr =
        (if ⌈((1500000 : Nat) : ℚ) / 1024⌉₊ ≤ (imageConfig 2048 1).MaxSize then
          (reservedStatus (imageConfig 2048 1)).LastErr
         else sizeError ⌈((1500000 : Nat) : ℚ) / 1024⌉₊ (imageConfig 2048 1).MaxSize
          (imageConfig 2048 1).DownloadURL) ∧
      statusAt imageStatusFile happyRun.2 = some happyRun.1) ∧
    happyRun.1.Size = 1465 ∧ happyRun.1.State = SwState.DOWNLOADED ∧
    (statusAt imageStatusFile
      (handleCreate Arch.bits64 imageStatusFile (imageConfig 2048 1) (fetchOk 1500000 7)
        ledgerGiB)).map (fun st => (st.Size, st.State)) =
      some (1465, SwState.DOWNLOADED) :=
  ⟨⟨by decide, by decide⟩,
    c7_size_is_ceiling_kib Arch.bits64 imageStatusFile (imageConfig 2048 1)
      (reservedStatus (imageConfig 2048 1)) (fetchOk 1500000 7) ledgerGiB
      { size := 1500000, sha256 := "0f2c" } (by decide) (by decide) (by decide)
      (by decide),
    by decide, by decide, by decide⟩

theorem handleCreate_failed (a : Arch) (f : String) (c : DownloaderConfig) (env : Env)
    (d : Machine)
    (hadm : c.MaxSize < d.globalStatus.RemainingSpace) (href : c.RefCount ≠ 0)
    (hfail : env.wget.err ≠ none ∨ fetched env (destOf c) d = none ∨
      ∃ file, fetched env (destOf c) d = some file ∧
        kibOfBytes a (file.size : Int) > c.MaxSize) :
    ∃ s e, s.ReservedSpace = c.MaxSize ∧
      (s.Size = 0 ∨ (env.wget.err = none ∧ ∃ file, fetched env (destOf c) d = some file ∧
        kibOfBytes a (file.size : Int) > c.MaxSize)) ∧
      handleCreate a f c env d =
        (createFailed a f s e env
          (afterWget f c (reservedStatus c) env (afterReservation a f c d))).2 := by
  have hf : fetched env (destOf c) (afterReservation a f c d) = fetched env (destOf c) d := rfl
  rw [handleCreate_admitted a f c env d hadm, if_neg href, doCreate_eq, hf]
  cases herr : env.wget.err with
  | some e => exact ⟨_, _, rfl, Or.inl rfl, rfl⟩
  | none =>
    cases hfile : fetched env (destOf c) d with
    | none => exact ⟨_, _, rfl, Or.inl rfl, rfl⟩
    | some file =>
      dsimp only
      by_cases hsize : kibOfBytes a (file.size : Int) > c.MaxSize
      · rw [if_pos hsize]
        exact ⟨_, _, rfl, Or.inr ⟨rfl, file, rfl, hsize⟩, rfl⟩
      · exfalso
        rcases hfail with h | h | ⟨file2, h1, h2⟩
        · exact h herr
        · rw [hfile] at h
          cases h
        · rw [hfile] at h1
          cases h1
          exact hsize h2

/-- C8 (counterexample): a create that passes admission (`MaxSize = 60` on an
empty ledger of 1024 KiB) and whose fetch fails leaves the global
`ReservedSpace` at 60, not at its prior value 0: the reservation is kept. -/
theorem c8_counterexample :
    (imageConfig 60 1).MaxSize < emptyLedger1024.globalStatus.RemainingSpace ∧
    (fetchFails 7).wget.err ≠ none ∧
    emptyLedger1024.globalStatus.ReservedSpace = 0 ∧
    (handleCreate Arch.bits64 imageStatusFile (imageConfig 60 1) (fetchFails 7)
      emptyLedger1024).globalStatus.ReservedSpace = 60 := by
  decide

/-- C8 (amended): when `handleCreate` passes admission with `RefCount > 0` and
then fails (fetch error, stat error, or size above `MaxSize`), the status it
leaves has `State = INITIAL`, `Size = 0`, `PendingAdd = false` and keeps the
reservation (`ReservedSpace = MaxSize`); the global `ReservedSpace` is the
prior value plus `MaxSize` (in `uint` arithmetic); on a fetch error and on a
stat error the global `UsedSpace` is what it was before the call. -/
theorem c8_failed_create_keeps_reservation (a : Arch) (statusFilename : String)
    (config : DownloaderConfig) (env : Env) (d : Machine)
    (hadm : config.MaxSize < d.globalStatus.RemainingSpace)
    (href : config.RefCount > 0)
    (hfail : env.wget.err ≠ none ∨ fetched env (destOf config) d = none ∨
      ∃ file, fetched env (destOf config) d = some file ∧
        kibOfBytes a (file.size : Int) > config.MaxSize)
    (hused : d.globalStatus.UsedSpace < a.modulus) :
    ∃ st,
      statusAt statusFilename (handleCreate a statusFilename config env d) = some st ∧
      st.State = SwState.INITIAL ∧ st.Size = 0 ∧ st.PendingAdd = false ∧
      st.ReservedSpace = config.MaxSize ∧
      (handleCreate a statusFilename config env d).globalStatus.ReservedSpace =
        (d.globalStatus.ReservedSpace + config.MaxSize) % a.modulus ∧
      ((handleCreate a statusFilename config env d).globalStatus.UsedSpace =
          d.globalStatus.UsedSpace ∨
        (env.wget.err = none ∧ ∃ file, fetched env (destOf config) d = some file ∧
          kibOfBytes a (file.size : Int) > config.MaxSize)) := by
  obtain ⟨s, e, hs, hsz, heq⟩ := handleCreate_failed a statusFilename config env d hadm
    (Nat.pos_iff_ne_zero.mp href) hfail
  rw [heq]
  refine ⟨_, createFailed_find _ _ _ _ _ _, ?_, ?_, ?_, ?_, ?_, ?_⟩
  · simp only [createFailed_status, recordFailure]
  · simp only [createFailed_status, recordFailure]
  · simp only [createFailed_status, recordFailure]
  · simp only [createFailed_status, recordFailure, hs]
  · rw [createFailed_reserved, afterWget_globalStatus, ← uadd_eq]
    simp only [afterReservation, updateRemainingSpace, writeGlobalStatus,
      writeDownloaderStatus, Machine.setReservedSpace]
  · rcases hsz with h0 | hbig
    · left
      rw [createFailed_used, afterWget_globalStatus, h0]
      simp only [afterReservation, updateRemainingSpace, writeGlobalStatus,
        writeDownloaderStatus, Machine.setReservedSpace]
      rw [if_neg (Nat.not_lt_zero _)]
      exact usub_zero a _ hused
    · exact Or.inr hbig

/-- Witness of C8: the fetch of a 60 KiB request fails on an empty ledger of
1024 KiB. -/
theorem c8_failed_create_keeps_reservation_witness :
    ∃ st,
      statusAt imageStatusFile
        (handleCreate Arch.bits64 imageStatusFile (imageConfig 60 1) (fetchFails 7)
          emptyLedger1024) = some st ∧
      st.State = SwState.INITIAL ∧ st.Size = 0 ∧ st.PendingAdd = false ∧
      st.ReservedSpace = (imageConfig 60 1).MaxSize ∧
      (handleCreate Arch.bits64 imageStatusFile (imageConfig 60 1) (fetchFails 7)
          emptyLedger1024).globalStatus.ReservedSpace =
        (emptyLedger1024.globalStatus.ReservedSpace + (imageConfig 60 1).MaxSize) %
          Arch.bits64.modulus ∧
      ((handleCreate Arch.bits64 imageStatusFile (imageConfig 60 1) (fetchFails 7)
          emptyLedger1024).globalStatus.UsedSpace =
          emptyLedger1024.globalStatus.UsedSpace ∨
        ((fetchFails 7).wget.err = none ∧
          ∃ file, fetched (fetchFails 7) (destOf (imageConfig 60 1)) emptyLedger1024 =
              some file ∧
            kibOfBytes Arch.bits64 (file.size : Int) > (imageConfig 60 1).MaxSize)) :=
  c8_failed_create_keeps_reservation Arch.bits64 imageStatusFile (imageConfig 60 1)
    (fetchFails 7) emptyLedger1024 (by decide) (by decide) (Or.inl (by decide)) (by decide)

/-- C3 (the code at the failing input): on a ledger with `UsedSpace = 100`,
`ReservedSpace = 0`, `RemainingSpace = 900`, a create of a 10 KiB request whose
fetch delivers 20 KiB (size exceeded), followed by the delete of the status it
wrote, ends with `UsedSpace = 80` and `RemainingSpace = 920`. -/
theorem c3_create_then_delete_loses_used_space :
    ledger1000.globalStatus =
      { UsedSpace := 100, ReservedSpace := 0, RemainingSpace := 900 } ∧
    (handleCreate Arch.bits64 imageStatusFile (imageConfig 10 1) (fetchOk 20480 7)
      ledger1000).globalStatus =
      { UsedSpace := 80, ReservedSpace := 10, RemainingSpace := 910 } ∧
    (createThenDelete Arch.bits64 imageStatusFile (imageConfig 10 1) (fetchOk 20480 7)
      ledger1000).globalStatus =
      { UsedSpace := 80, ReservedSpace := 0, RemainingSpace := 920 } := by
  decide

/-- C2 (the code at the failing input): on a ledger of 100 KiB with nothing
used or reserved, a create of a 60 KiB request whose fetch fails, followed by
a modify with the same config whose fetch delivers 50 KiB, ends with
`UsedSpace = 50` and `ReservedSpace = 60`: 110 KiB against a budget of 100, and
`RemainingSpace` wrapped around. -/
theorem c2_retry_exceeds_budget :
    ledger100.globalStatus.UsedSpace + ledger100.globalStatus.ReservedSpace ≤
      ledger100.globalConfig.MaxSpace ∧
    (modifyFromFile Arch.bits64 imageStatusFile (imageConfig 60 1) (fetchOk 51200 8)
      (handleCreate Arch.bits64 imageStatusFile (imageConfig 60 1) (fetchFails 7)
        ledger100)).globalStatus =
      { UsedSpace := 50, ReservedSpace := 60, RemainingSpace := 2 ^ 64 - 10 } ∧
    (modifyFromFile Arch.bits64 imageStatusFile (imageConfig 60 1) (fetchOk 51200 8)
      (handleCreate Arch.bits64 imageStatusFile (imageConfig 60 1) (fetchFails 7)
        ledger100)).globalConfig.MaxSpace = 100 := by
  decide

theorem deferredError_ne_empty (url : String) : deferredError url ≠ "" := by
  intro h
  have hd := congrArg String.data h
  unfold deferredError at hd
  simp [String.data_append] at hd

theorem handleCreate_deferred (a : Arch) (f : String) (c : DownloaderConfig) (env : Env)
    (d : Machine) (hadm : c.MaxSize < d.globalStatus.RemainingSpace)
    (href : c.RefCount = 0) :
    handleCreate a f c env d =
      writeDownloaderStatus
        (recordFailure a (reservedStatus c) (deferredError c.DownloadURL) env.now) f
        (afterReservation a f c d) := by
  rw [handleCreate_admitted a f c env d hadm, if_pos href]

/-- C13: when `config.DownloadURL` differs from `status.DownloadURL`,
`handleModify` returns at once: the process and every file (global status,
status files, catalogue) are exactly as before and nothing is appended to the
trace, so no fetch is started. -/
theorem c13_url_change_rejected (a : Arch) (statusFilename : String)
    (config : DownloaderConfig) (status : DownloaderStatus) (env : Env) (d : Machine)
    (h : config.DownloadURL ≠ status.DownloadURL) :
    handleModify a statusFilename config status env d = d ∧
      effectsSince d (handleModify a statusFilename config status env d) = [] := by
  have h1 : handleModify a statusFilename config status env d = d := by
    unfold handleModify
    rw [if_pos h]
  rw [h1]
  exact ⟨rfl, effectsSince_append d d [] (List.append_nil _).symm⟩

/-- C14: with `RefCount = 0` and `MaxSize < RemainingSpace`, `handleCreate`
does not fetch (it writes the status, the global status and the status again,
and leaves the catalogue alone) and keeps the reservation: the status it
leaves has `State = INITIAL`, `PendingAdd = false`, `Size = 0`,
`ReservedSpace = MaxSize`, the non-empty deferred-download marker as `LastErr`
and `RetryCount = 1`; the global `ReservedSpace` has grown by `MaxSize` (in
`uint` arithmetic) and `UsedSpace` is unchanged. -/
theorem c14_deferred_create_keeps_reservation (a : Arch) (statusFilename : String)
    (config : DownloaderConfig) (env : Env) (d : Machine)
    (hadm : config.MaxSize < d.globalStatus.RemainingSpace)
    (href : config.RefCount = 0) :
    ∃ st,
      statusAt statusFilename (handleCreate a statusFilename config env d) = some st ∧
      st.State = SwState.INITIAL ∧ st.PendingAdd = false ∧ st.Size = 0 ∧
      st.ReservedSpace = config.MaxSize ∧
      st.LastErr = deferredError config.DownloadURL ∧ st.LastErr ≠ "" ∧
      st.RetryCount = 1 ∧
      (handleCreate a statusFilename config env d).globalStatus.ReservedSpace =
        (d.globalStatus.ReservedSpace + config.MaxSize) % a.modulus ∧
      (handleCreate a statusFilename config env d).globalStatus.UsedSpace =
        d.globalStatus.UsedSpace ∧
      (handleCreate a statusFilename config env d).catalogue = d.catalogue ∧
      effectsSince d (handleCreate a statusFilename config env d) =
        [Effect.wroteStatus statusFilename (statusOf config true),
         Effect.wroteGlobal (handleCreate a statusFilename config env d).globalStatus,
         Effect.wroteStatus statusFilename st] := by
  rw [handleCreate_deferred a statusFilename config env d hadm href]
  refine ⟨recordFailure a (reservedStatus config) (deferredError config.DownloadURL) env.now,
    find_store_same _ _ _, rfl, rfl, rfl, rfl, rfl, deferredError_ne_empty _, toInt_one a,
    ?_, rfl, rfl, ?_⟩
  · rw [← uadd_eq]
    simp only [afterReservation, updateRemainingSpace, writeGlobalStatus,
      writeDownloaderStatus, Machine.setReservedSpace, reservedStatus]
  · apply effectsSince_append
    simp [afterReservation, updateRemainingSpace, writeGlobalStatus,
      writeDownloaderStatus, Machine.setReservedSpace]

theorem handleModify_drop (a : Arch) (f : String) (c : DownloaderConfig)
    (st : DownloaderStatus) (env : Env) (d : Machine)
    (href : st.RefCount ≠ 0) (herr : st.LastErr = "")
    (hurl : c.DownloadURL = st.DownloadURL) (hsha : c.ImageSha256 = st.ImageSha256)
    (hzero : c.RefCount = 0) :
    handleModify a f c st env d = (doDelete a f st d).2 := by
  unfold handleModify
  rw [if_neg (not_not.mpr hurl), if_neg (by rw [hsha, herr]; simp),
    if_neg (fun h => href h.1), if_pos ⟨href, hzero⟩]

theorem saturating_sub (a : Arch) (u s : Nat) (hu : u < a.modulus) :
    (if s > u then 0 else usub a u s) = u - s := by
  split
  · omega
  · exact usub_of_le a u s hu (by omega)

/-- C16: for a status with `RefCount ≠ 0`, empty `LastErr` and the config's
URL and digest, `handleModify` with `config.RefCount = 0` releases the used
space but not the reservation: the status it leaves has `Size = 0`,
`State = INITIAL` and the same `ReservedSpace`, the global `UsedSpace` becomes
`max(0, UsedSpace - status.Size)` and the global `ReservedSpace` is unchanged. -/
theorem c16_refcount_drop_keeps_reservation (a : Arch) (statusFilename : String)
    (config : DownloaderConfig) (status : DownloaderStatus) (env : Env) (d : Machine)
    (hstate : status.State = SwState.DOWNLOADED)
    (href : status.RefCount ≠ 0) (herr : status.LastErr = "")
    (hurl : config.DownloadURL = status.DownloadURL)
    (hsha : config.ImageSha256 = status.ImageSha256)
    (hzero : config.RefCount = 0)
    (hused : d.globalStatus.UsedSpace < a.modulus) :
    ∃ st,
      statusAt statusFilename (handleModify a statusFilename config status env d) = some st ∧
      st.Size = 0 ∧ st.State = SwState.INITIAL ∧
      st.ReservedSpace = status.ReservedSpace ∧
      (handleModify a statusFilename config status env d).globalStatus.UsedSpace =
        d.globalStatus.UsedSpace - status.Size ∧
      (handleModify a statusFilename config status env d).globalStatus.ReservedSpace =
        d.globalStatus.ReservedSpace := by
  have _ := hstate
  rw [handleModify_drop a statusFilename config status env d href herr hurl hsha hzero]
  refine ⟨(doDelete a statusFilename status d).1, doDelete_find _ _ _ _, rfl, rfl, rfl, ?_,
    doDelete_reserved _ _ _ _⟩
  rw [doDelete_used]
  exact saturating_sub a _ _ hused

/-- Witness of C16: the downloaded image of 50 KiB is modified to
`RefCount = 0`. -/
theorem c16_refcount_drop_keeps_reservation_witness :
    ∃ st,
      statusAt imageStatusFile
        (handleModify Arch.bits64 imageStatusFile (imageConfig 60 0) downloadedImageStatus
          (fetchOk 51200 9) ledgerWithImage) = some st ∧
      st.Size = 0 ∧ st.State = SwState.INITIAL ∧
      st.ReservedSpace = downloadedImageStatus.ReservedSpace ∧
      (handleModify Arch.bits64 imageStatusFile (imageConfig 60 0) downloadedImageStatus
          (fetchOk 51200 9) ledgerWithImage).globalStatus.UsedSpace =
        ledgerWithImage.globalStatus.UsedSpace - downloadedImageStatus.Size ∧
      (handleModify Arch.bits64 imageStatusFile (imageConfig 60 0) downloadedImageStatus
          (fetchOk 51200 9) ledgerWithImage).globalStatus.ReservedSpace =
        ledgerWithImage.globalStatus.ReservedSpace :=
  c16_refcount_drop_keeps_reservation Arch.bits64 imageStatusFile (imageConfig 60 0)
    downloadedImageStatus (fetchOk 51200 9) ledgerWithImage (by decide) (by decide)
    (by decide) (by decide) (by decide) (by decide) (by decide)

/-- Witness of C13: a modify of the downloaded image with another URL. -/
theorem c13_url_change_rejected_witness :
    handleModify Arch.bits64 imageStatusFile
        { imageConfig 60 1 with DownloadURL := "https://example.org/other" }
        downloadedImageStatus (fetchOk 51200 9) ledgerWithImage = ledgerWithImage ∧
      effectsSince ledgerWithImage
        (handleModify Arch.bits64 imageStatusFile
          { imageConfig 60 1 with DownloadURL := "https://example.org/other" }
          downloadedImageStatus (fetchOk 51200 9) ledgerWithImage) = [] :=
  c13_url_change_rejected Arch.bits64 imageStatusFile
    { imageConfig 60 1 with DownloadURL := "https://example.org/other" }
    downloadedImageStatus (fetchOk 51200 9) ledgerWithImage (by decide)

/-- Witness of C14: a request of at most 60 KiB with `RefCount = 0` on an empty
ledger of 100 KiB. -/
theorem c14_deferred_create_keeps_reservation_witness :
    ∃ st,
      statusAt imageStatusFile
        (handleCreate Arch.bits64 imageStatusFile (imageConfig 60 0) (fetchOk 51200 7)
          ledger100) = some st ∧
      st.State = SwState.INITIAL ∧ st.PendingAdd = false ∧ st.Size = 0 ∧
      st.ReservedSpace = (imageConfig 60 0).MaxSize ∧
      st.LastErr = deferredError (imageConfig 60 0).DownloadURL ∧ st.LastErr ≠ "" ∧
      st.RetryCount = 1 ∧
      (handleCreate Arch.bits64 imageStatusFile (imageConfig 60 0) (fetchOk 51200 7)
          ledger100).globalStatus.ReservedSpace =
        (ledger100.globalStatus.ReservedSpace + (imageConfig 60 0).MaxSize) %
          Arch.bits64.modulus ∧
      (handleCreate Arch.bits64 imageStatusFile (imageConfig 60 0) (fetchOk 51200 7)
          ledger100).globalStatus.UsedSpace = ledger100.globalStatus.UsedSpace ∧
      (handleCreate Arch.bits64 imageStatusFile (imageConfig 60 0) (fetchOk 51200 7)
          ledger100).catalogue = ledger100.catalogue ∧
      effectsSince ledger100
        (handleCreate Arch.bits64 imageStatusFile (imageConfig 60 0) (fetchOk 51200 7)
          ledger100) =
        [Effect.wroteStatus imageStatusFile (statusOf (imageConfig 60 0) true),
         Effect.wroteGlobal
           (handleCreate Arch.bits64 imageStatusFile (imageConfig 60 0) (fetchOk 51200 7)
             ledger100).globalStatus,
         Effect.wroteStatus imageStatusFile st] :=
  c14_deferred_create_keeps_reservation Arch.bits64 imageStatusFile (imageConfig 60 0)
    (fetchOk 51200 7) ledger100 (by decide) (by decide)

theorem handleDelete_reserved (a : Arch) (f : String) (st : DownloaderStatus)
    (d : Machine) :
    (handleDelete a f st d).globalStatus.ReservedSpace =
      usub a d.globalStatus.ReservedSpace st.ReservedSpace := by
  unfold handleDelete
  dsimp only
  show (doDelete a f _ _).2.globalStatus.ReservedSpace = _
  rw [doDelete_reserved]
  by_cases h : st.Size > d.globalStatus.UsedSpace
  · simp [h, writeDownloaderStatus, updateRemainingSpace, writeGlobalStatus,
      Machine.setUsedSpace, Machine.setReservedSpace]
  · simp [h, writeDownloaderStatus, updateRemainingSpace, writeGlobalStatus,
      Machine.setUsedSpace, Machine.setReservedSpace]

theorem handleDelete_used (a : Arch) (f : String) (st : DownloaderStatus)
    (d : Machine) (hused : d.globalStatus.UsedSpace < a.modulus) :
    (handleDelete a f st d).globalStatus.UsedSpace =
      d.globalStatus.UsedSpace - st.Size := by
  unfold handleDelete
  dsimp only
  show (doDelete a f _ _).2.globalStatus.UsedSpace = _
  rw [doDelete_used]
  by_cases h : st.Size > d.globalStatus.UsedSpace
  · have h0 : usub a 0 0 = 0 := usub_zero a 0 (modulus_pos a)
    simp [h, writeDownloaderStatus, updateRemainingSpace, writeGlobalStatus,
      Machine.setUsedSpace, Machine.setReservedSpace, h0]
    omega
  · have h1 : usub a d.globalStatus.UsedSpace st.Size = d.globalStatus.UsedSpace - st.Size :=
      usub_of_le a _ _ hused (by omega)
    have h2 : usub a (d.globalStatus.UsedSpace - st.Size) 0 =
        d.globalStatus.UsedSpace - st.Size := usub_zero a _ (by omega)
    simp [h, writeDownloaderStatus, updateRemainingSpace, writeGlobalStatus,
      Machine.setUsedSpace, Machine.setReservedSpace, h1, h2]

/-- C18 (counterexample): `handleDelete` of a status that records a reservation
of 60 KiB, on a ledger whose `ReservedSpace` is 0, leaves
`ReservedSpace = 2 ^ 64 - 60`, a wrapped-around value, not `max(0, 0 - 60) = 0`. -/
theorem c18_counterexample :
    ledger100.globalStatus.ReservedSpace = 0 ∧
    reservedImageStatus.ReservedSpace = 60 ∧
    (handleDelete Arch.bits64 imageStatusFile reservedImageStatus
      ledger100).globalStatus.ReservedSpace = 2 ^ 64 - 60 := by
  decide

/-- C18 (amended): `handleDelete` decrements `UsedSpace` with saturation at
zero, `UsedSpace = max(0, UsedSpace - status.Size)`, and decrements
`ReservedSpace` in plain `uint` arithmetic,
`ReservedSpace = (ReservedSpace - status.ReservedSpace) mod 2 ^ w`. -/
theorem c18_used_saturates_reserved_wraps (a : Arch) (statusFilename : String)
    (status : DownloaderStatus) (d : Machine)
    (hused : d.globalStatus.UsedSpace < a.modulus) :
    (handleDelete a statusFilename status d).globalStatus.UsedSpace =
      d.globalStatus.UsedSpace - status.Size ∧
    (((handleDelete a statusFilename status d).globalStatus.ReservedSpace : Nat) : Int) =
      ((d.globalStatus.ReservedSpace : Int) - (status.ReservedSpace : Int)) %
        (2 ^ a.bits : Int) := by
  refine ⟨handleDelete_used a statusFilename status d hused, ?_⟩
  rw [handleDelete_reserved]
  exact toUint_cast a _

/-- Witness of C18: the delete of the downloaded image of 50 KiB. -/
theorem c18_used_saturates_reserved_wraps_witness :
    (handleDelete Arch.bits64 imageStatusFile downloadedImageStatus
        ledgerWithImage).globalStatus.UsedSpace =
      ledgerWithImage.globalStatus.UsedSpace - downloadedImageStatus.Size ∧
    (((handleDelete Arch.bits64 imageStatusFile downloadedImageStatus
        ledgerWithImage).globalStatus.ReservedSpace : Nat) : Int) =
      ((ledgerWithImage.globalStatus.ReservedSpace : Int) -
        (downloadedImageStatus.ReservedSpace : Int)) % (2 ^ Arch.bits64.bits : Int) :=
  c18_used_saturates_reserved_wraps Arch.bits64 imageStatusFile downloadedImageStatus
    ledgerWithImage (by decide)

mutual
theorem locationSize_eq : ∀ (e : DirEntry), entryBytes e < 2 ^ 63 →
    locationSize e = (entryBytes e : Int)
  | .file _ size, _ => by simp [locationSize, entryBytes]
  | .dir _ entries, h => by
    have h2 := sizeFromDirLoop_eq entries 0 (by simpa [entryBytes] using h)
    simp only [Nat.cast_zero, Nat.zero_add] at h2
    simp only [locationSize, entryBytes, h2]
theorem sizeFromDirLoop_eq : ∀ (l : List DirEntry) (acc : Nat),
    acc + bytesBelow l < 2 ^ 63 →
    sizeFromDirLoop l (acc : Int) = ((acc + bytesBelow l : Nat) : Int)
  | [], acc, _ => by simp [sizeFromDirLoop, bytesBelow]
  | e :: rest, acc, h => by
    have he : entryBytes e < 2 ^ 63 := by simp [bytesBelow] at h; omega
    have hacc : acc + entryBytes e + bytesBelow rest < 2 ^ 63 := by
      simp [bytesBelow] at h; omega
    have hsum : acc + entryBytes e < 2 ^ 63 := by omega
    have h1 := locationSize_eq e he
    have h2 := sizeFromDirLoop_eq rest (acc + entryBytes e) hacc
    have hcast : (acc : Int) + (entryBytes e : Int) = ((acc + entryBytes e : Nat) : Int) := by
      push_cast
      rfl
    have hw : wrap64 ((acc : Int) + (entryBytes e : Int)) =
        ((acc + entryBytes e : Nat) : Int) := by
      rw [hcast]
      exact wrap64_of_lt _ (by positivity) (by exact_mod_cast hsum)
    have hb : acc + bytesBelow (e :: rest) = acc + entryBytes e + bytesBelow rest := by
      simp only [bytesBelow]
      omega
    rw [hb, ← h2, ← hw, ← h1]
    simp only [sizeFromDirLoop]
end

theorem sizeFromDir_eq (locations : List DirEntry) (h : bytesBelow locations < 2 ^ 63) :
    sizeFromDir locations = (bytesBelow locations : Int) := by
  have h2 := sizeFromDirLoop_eq locations 0 (by simpa using h)
  simp only [Nat.cast_zero, Nat.zero_add] at h2
  exact h2

/-- C19 (counterexample): with two files of one byte each in the catalogue,
rounding each file up separately gives 2 KiB, but `handleInit` sets
`UsedSpace = 1`. -/
theorem c19_counterexample :
    kibPerFile twoTinyFiles = 2 ∧
    (handleInit Arch.bits64 (some { MaxSpace := 100 }) twoTinyFiles freshProcess).map
        (fun d => d.globalStatus.UsedSpace) = some 1 := by
  have hsize : sizeFromDir twoTinyFiles = 2 := by decide
  have hkib : kibOfBytes Arch.bits64 2 = 1 := by decide
  refine ⟨by decide, ?_⟩
  simp only [handleInit, hsize, hkib, updateRemainingSpace, writeGlobalStatus,
    Machine.setUsedSpace, Machine.setReservedSpace, Option.map_some']

/-- C19 (amended): for every directory tree whose total size in bytes, the sum
over all files found recursively, satisfies `total + 1023 < 2 ^ 63` (the range
of `int64`) and `ceil(total / 1024) < 2 ^ w` (the range of `uint`),
`handleInit` sets `UsedSpace` to `ceil(total / 1024)`: the total is rounded up
to whole KiB once, not each file separately. -/
theorem c19_used_space_rounds_the_total (a : Arch) (config : GlobalDownloadConfig)
    (locations : List DirEntry) (d0 : Machine)
    (hb : bytesBelow locations + 1023 < 2 ^ 63)
    (hk : (bytesBelow locations + 1023) / 1024 < a.modulus) :
    ∃ d1, handleInit a (some config) locations d0 = some d1 ∧
      d1.globalStatus.UsedSpace = ⌈(bytesBelow locations : ℚ) / 1024⌉₊ ∧
      d1.globalStatus.UsedSpace = (bytesBelow locations + 1023) / 1024 := by
  have h1 : kibOfBytes a (sizeFromDir locations) = (bytesBelow locations + 1023) / 1024 := by
    rw [sizeFromDir_eq locations (by omega)]
    exact kibOfBytes_eq a _ hb hk
  refine ⟨_, rfl, ?_, ?_⟩
  · rw [ceil_kib, ← h1]
    simp only [updateRemainingSpace, writeGlobalStatus, Machine.setUsedSpace,
      Machine.setReservedSpace]
  · rw [← h1]
    simp only [updateRemainingSpace, writeGlobalStatus, Machine.setUsedSpace,
      Machine.setReservedSpace]

/-- Witness of C19: two files of one byte each count as 1 KiB. -/
theorem c19_used_space_rounds_the_total_witness :
    ∃ d1, handleInit Arch.bits64 (some { MaxSpace := 100 }) twoTinyFiles freshProcess =
        some d1 ∧
      d1.globalStatus.UsedSpace = ⌈(bytesBelow twoTinyFiles : ℚ) / 1024⌉₊ ∧
      d1.globalStatus.UsedSpace = (bytesBelow twoTinyFiles + 1023) / 1024 :=
  c19_used_space_rounds_the_total Arch.bits64 { MaxSpace := 100 } twoTinyFiles freshProcess
    (by decide) (by decide)

theorem handleCreate_leaves (a : Arch) (f : String) (c : DownloaderConfig) (env : Env)
    (d : Machine) :
    ∃ st, statusAt f (handleCreate a f c env d) = some st ∧ Mirrors st c := by
  by_cases hadm : c.MaxSize < d.globalStatus.RemainingSpace
  · rw [handleCreate_admitted a f c env d hadm]
    split
    · exact ⟨_, find_store_same _ _ _, rfl, rfl, rfl, rfl, rfl, rfl⟩
    · rw [doCreate_eq]
      split
      · exact ⟨_, createFailed_find _ _ _ _ _ _, rfl, rfl, rfl, rfl, rfl, rfl⟩
      · split
        · exact ⟨_, createFailed_find _ _ _ _ _ _, rfl, rfl, rfl, rfl, rfl, rfl⟩
        · split
          · exact ⟨_, createFailed_find _ _ _ _ _ _, rfl, rfl, rfl, rfl, rfl, rfl⟩
          · exact ⟨_, find_store_same _ _ _, rfl, rfl, rfl, rfl, rfl, rfl⟩
  · rw [handleCreate_denied a f c env d (Nat.not_lt.mp hadm)]
    exact ⟨_, find_store_same _ _ _, rfl, rfl, rfl, rfl, rfl, rfl⟩

theorem handleModify_same (a : Arch) (f : String) (c : DownloaderConfig)
    (st : DownloaderStatus) (env : Env) (d : Machine)
    (hm : Mirrors st c) (herr : st.LastErr = "") :
    handleModify a f c st env d = writeDownloaderStatus st f d := by
  obtain ⟨hr, hu, hs, _, hpm, _⟩ := hm
  unfold handleModify
  rw [if_neg (not_not.mpr hu.symm), if_neg (by rw [hs, herr]; simp),
    if_neg (fun h => h.2 (by rw [← hr]; exact h.1)),
    if_neg (fun h => h.1 (by rw [hr]; exact h.2))]
  have hst : { st with RefCount := c.RefCount, PendingModify := false } = st := by
    rw [← hr, ← hpm]
  rw [hst]

/-- C15 (the code at the failing input): on an empty ledger of 100 KiB, a create
of a 60 KiB request with `RefCount = 0` keeps a reservation of 60 KiB; the
later modify with `RefCount = 1` and a fetch of 50 KiB ends with
`State = DOWNLOADED` and `UsedSpace = 50`, but the global `ReservedSpace` is
still 60, not the 0 it was before the create, and `RemainingSpace` has wrapped
around. -/
theorem c15_deferred_fetch_leaks_reservation :
    ledger100.globalStatus =
      { UsedSpace := 0, ReservedSpace := 0, RemainingSpace := 100 } ∧
    (handleCreate Arch.bits64 imageStatusFile (imageConfig 60 0) (fetchOk 51200 7)
      ledger100).globalStatus =
      { UsedSpace := 0, ReservedSpace := 60, RemainingSpace := 40 } ∧
    (statusAt imageStatusFile
      (modifyFromFile Arch.bits64 imageStatusFile (imageConfig 60 1) (fetchOk 51200 8)
        (handleCreate Arch.bits64 imageStatusFile (imageConfig 60 0) (fetchOk 51200 7)
          ledger100))).map (fun st => (st.State, st.Size, st.ReservedSpace)) =
      some (SwState.DOWNLOADED, 50, 0) ∧
    (modifyFromFile Arch.bits64 imageStatusFile (imageConfig 60 1) (fetchOk 51200 8)
      (handleCreate Arch.bits64 imageStatusFile (imageConfig 60 0) (fetchOk 51200 7)
        ledger100)).globalStatus =
      { UsedSpace := 50, ReservedSpace := 60, RemainingSpace := 2 ^ 64 - 10 } := by
  decide

/-- C17 (the code at the failing input): the image is fetched into
`pending/0f2c/img`; `doDelete` looks for `pending/img`, so after
`handleDelete`, and likewise after a `handleModify` that drops `RefCount` to
0, the file is still at `pending/0f2c/img` and no file removal is in the
trace. -/
theorem c17_delete_leaves_pending_file :
    destOf (imageConfig 60 1) = "/var/tmp/zedmanager/downloads/pending/0f2c/img" ∧
    (statusAt imageStatusFile
      (handleCreate Arch.bits64 imageStatusFile (imageConfig 60 1) (fetchOk 51200 7)
        ledger100)).map (fun st => st.State) = some SwState.DOWNLOADED ∧
    (createThenDelete Arch.bits64 imageStatusFile (imageConfig 60 1) (fetchOk 51200 7)
      ledger100).catalogue.find (destOf (imageConfig 60 1)) =
      some { size := 51200, sha256 := "0f2c" } ∧
    (modifyFromFile Arch.bits64 imageStatusFile (imageConfig 60 0) (fetchOk 51200 8)
      (handleCreate Arch.bits64 imageStatusFile (imageConfig 60 1) (fetchOk 51200 7)
        ledger100)).catalogue.find (destOf (imageConfig 60 1)) =
      some { size := 51200, sha256 := "0f2c" } ∧
    Effect.removedFile (destOf (imageConfig 60 1)) ∉
      effectsSince ledger100
        (createThenDelete Arch.bits64 imageStatusFile (imageConfig 60 1) (fetchOk 51200 7)
          ledger100) := by
  decide

/-- C12 (counterexample): a create whose fetch fails, followed by a modify with
the same config whose fetch succeeds: the modify runs `wget` and changes the
ledger (`UsedSpace` goes from 0 to 50). -/
theorem c12_counterexample :
    (handleCreate Arch.bits64 imageStatusFile (imageConfig 60 1) (fetchFails 7)
      ledger100).globalStatus.UsedSpace = 0 ∧
    (modifyFromFile Arch.bits64 imageStatusFile (imageConfig 60 1) (fetchOk 51200 8)
      (handleCreate Arch.bits64 imageStatusFile (imageConfig 60 1) (fetchFails 7)
        ledger100)).globalStatus.UsedSpace = 50 ∧
    Effect.ranWget (imageConfig 60 1).DownloadURL (destOf (imageConfig 60 1)) ∈
      effectsSince
        (handleCreate Arch.bits64 imageStatusFile (imageConfig 60 1) (fetchFails 7)
          ledger100)
        (modifyFromFile Arch.bits64 imageStatusFile (imageConfig 60 1) (fetchOk 51200 8)
          (handleCreate Arch.bits64 imageStatusFile (imageConfig 60 1) (fetchFails 7)
            ledger100)) := by
  decide

/-- C22 (the code at the failing input): the image is in state `DOWNLOADED`
with an empty `LastErr` and 50 KiB used; the modify to `RefCount = 0` releases
the used space but leaves `RefCount = 1` in the status file; the modify back to
`RefCount = 1` then runs no `wget`: the status stays in `State = INITIAL` with
`Size = 0` and `UsedSpace` stays 0. -/
theorem c22_refcount_return_does_not_fetch :
    (statusAt imageStatusFile imageDownloaded).map
        (fun st => (st.State, st.LastErr, st.RefCount, st.Size)) =
      some (SwState.DOWNLOADED, "", 1, 50) ∧
    imageDownloaded.globalStatus.UsedSpace = 50 ∧
    (statusAt imageStatusFile imageDropped).map
        (fun st => (st.State, st.LastErr, st.RefCount, st.Size)) =
      some (SwState.INITIAL, "", 1, 0) ∧
    imageDropped.globalStatus.UsedSpace = 0 ∧
    (statusAt imageStatusFile imageWantedAgain).map
        (fun st => (st.State, st.LastErr, st.RefCount, st.Size)) =
      some (SwState.INITIAL, "", 1, 0) ∧
    imageWantedAgain.globalStatus.UsedSpace = 0 ∧
    Effect.ranWget (imageConfig 60 1).DownloadURL (destOf (imageConfig 60 1)) ∉
      effectsSince imageDropped imageWantedAgain := by
  decide

/-- C23 (the code at the failing input): a create whose fetch fails leaves
`RetryCount = 1` and a non-empty `LastErr`; the retry through `handleModify`
whose fetch fails again runs `wget` and leaves `RetryCount = 1`, not 2. -/
theorem c23_retry_count_restarts :
    (statusAt imageStatusFile imageFailedOnce).map
        (fun st => (st.RetryCount, st.LastErr, st.State)) =
      some (1, "exit status 4", SwState.INITIAL) ∧
    Effect.ranWget (imageConfig 60 1).DownloadURL (destOf (imageConfig 60 1)) ∈
      effectsSince imageFailedOnce imageFailedTwice ∧
    (statusAt imageStatusFile imageFailedTwice).map
        (fun st => (st.RetryCount, st.LastErr, st.State)) =
      some (1, "exit status 4", SwState.INITIAL) := by
  decide

/-- C24 (the code at the failing input): from an empty status directory and
`ReservedSpace = 0`, a create whose fetch fails keeps its reservation of
60 KiB in the ledger and in the status file; the retry through `handleModify`
whose fetch succeeds leaves the global `ReservedSpace` at 60 while the only
status file has `ReservedSpace = 0`; after `handleDelete` no status file
exists and the global `ReservedSpace` is still 60. -/
theorem c24_reservation_leaks_on_retry :
    ledger100.statusDir = [] ∧ ledger100.globalStatus.ReservedSpace = 0 ∧
    imageFailedOnce.globalStatus.ReservedSpace = 60 ∧
    reservedInStatusFiles imageFailedOnce = 60 ∧
    imageRetried.globalStatus.ReservedSpace = 60 ∧
    reservedInStatusFiles imageRetried = 0 ∧
    (deleteFromFile Arch.bits64 imageStatusFile imageRetried).statusDir = [] ∧
    (deleteFromFile Arch.bits64 imageStatusFile imageRetried).globalStatus.ReservedSpace =
      60 := by
  decide

/-- C7 (counterexample): on a 32-bit target a fetched file of `2 ^ 42` bytes
is `ceil(b / 1024) = 2 ^ 32` KiB, more than `MaxSize = 60`, yet `doCreate`
computes 0, accepts the download and records `Size = 0`, which is also what
`handleCreate` leaves in the status file; on a 64-bit target a
file of `2 ^ 63 - 1` bytes is `2 ^ 53` KiB, within `MaxSize = 2 ^ 53`, yet
`doCreate` computes 18437736874454810625 and rejects the download. -/
theorem c7_counterexample :
    (⌈((2 ^ 42 : Nat) : ℚ) / 1024⌉₊ = 2 ^ 32 ∧
      ¬ (2 ^ 32 ≤ (imageConfig 60 1).MaxSize) ∧
      kibOfBytes Arch.bits32 ((2 ^ 42 : Nat) : Int) = 0 ∧
      hugeRun32.1.State = SwState.DOWNLOADED ∧ hugeRun32.1.Size = 0 ∧
      (statusAt imageStatusFile
        (handleCreate Arch.bits32 imageStatusFile (imageConfig 60 1) (fetchOk (2 ^ 42) 7)
          ledger100)).map (fun st => (st.State, st.Size)) =
        some (SwState.DOWNLOADED, 0)) ∧
    (⌈((2 ^ 63 - 1 : Nat) : ℚ) / 1024⌉₊ = 2 ^ 53 ∧
      2 ^ 53 ≤ (imageConfig (2 ^ 53) 1).MaxSize ∧
      kibOfBytes Arch.bits64 ((2 ^ 63 - 1 : Nat) : Int) = 18437736874454810625 ∧
      hugeRun64.1.State = SwState.INITIAL ∧ hugeRun64.1.Size = 0) := by
  refine ⟨⟨?_, by decide, by decide, by decide, by decide, by decide⟩,
    ⟨?_, by decide, by decide, by decide, by decide⟩⟩
  · rw [ceil_kib]
    decide
  · rw [ceil_kib]
    decide

end Downloader

/-! ## Verifier: digest check and the delivered invariant -/

namespace Verifier

theorem verifiedPath_under (s n : String) : underVerified (verifiedPath s n) := by
  unfold underVerified verifiedPath
  simp only [String.data_append, List.append_assoc]
  exact ⟨_, rfl⟩

theorem pendingPath_not_under (s n : String) : ¬ underVerified (pendingPath s n) := by
  unfold underVerified pendingPath
  simp only [String.data_append, List.append_assoc, List.prefix_append_right_inj]
  intro h
  simp at h

theorem verifierPath_not_under (s n : String) : ¬ underVerified (verifierPath s n) := by
  unfold underVerified verifierPath
  simp only [String.data_append, List.append_assoc, List.prefix_append_right_inj]
  intro h
  simp at h

theorem verifiedPath_sha_eq (s n s2 n2 : String) (hl : s.length = s2.length)
    (h : verifiedPath s n = verifiedPath s2 n2) : s = s2 := by
  unfold verifiedPath at h
  have hd := congrArg String.data h
  simp only [String.data_append, List.append_assoc] at hd
  have h1 := List.append_cancel_left hd
  have h2 := List.append_cancel_left h1
  have h3 := (List.append_inj h2 (show s.data.length = s2.data.length from hl)).1
  exact String.ext h3

theorem handleCreate_mismatch (f : String) (c : VerifyImageConfig) (env : Env)
    (v : Machine) (file : FileData)
    (hsrc : v.catalogue.find (pendingPath c.ImageSha256 c.Safename) = some file)
    (henv : env.succeeds) (hne : file.sha256 ≠ c.ImageSha256) :
    ∃ v2, handleCreate f c env v = Run.returned v2 ∧
      v2.statusDir.find f = some
        { statusOf c with
          LastErr := "got " ++ file.sha256 ++ " expected " ++ c.ImageSha256
          LastErrTime := env.now
          PendingAdd := false
          State := SwState.INITIAL } ∧
      v2.catalogue = moved v.catalogue (pendingPath c.ImageSha256 c.Safename)
        (verifierPath c.ImageSha256 c.Safename) file := by
  obtain ⟨h1, h2, h3, h4, h5, h6, h7, h8⟩ := henv
  unfold pendingPath at hsrc
  unfold handleCreate rename
  simp only [h1, h2, h3, h4, h5, writeVerifyImageStatus, hsrc, hne, Bool.false_eq_true,
    if_false, ne_eq, not_false_eq_true, if_true]
  refine ⟨_, rfl, find_store_same _ _ _, rfl⟩

theorem handleCreate_match (f : String) (c : VerifyImageConfig) (env : Env)
    (v : Machine) (file : FileData)
    (hsrc : v.catalogue.find (pendingPath c.ImageSha256 c.Safename) = some file)
    (henv : env.succeeds) (heq : file.sha256 = c.ImageSha256) :
    ∃ v2, handleCreate f c env v = Run.returned v2 ∧
      v2.statusDir.find f = some
        { statusOf c with PendingAdd := false, State := SwState.DELIVERED } ∧
      v2.catalogue =
        moved
          (moved v.catalogue (pendingPath c.ImageSha256 c.Safename)
            (verifierPath c.ImageSha256 c.Safename) file)
          (verifierPath c.ImageSha256 c.Safename)
          (verifiedPath c.ImageSha256 c.Safename) file := by
  obtain ⟨h1, h2, h3, h4, h5, h6, h7, h8⟩ := henv
  unfold pendingPath at hsrc
  unfold handleCreate rename
  simp only [h1, h2, h3, h4, h5, h6, h7, h8, writeVerifyImageStatus, hsrc, heq,
    find_store_same, Bool.false_eq_true, if_false, ne_eq, not_true_eq_false]
  refine ⟨_, rfl, find_store_same _ _ _, rfl⟩

theorem handleCreate_others (f : String) (c : VerifyImageConfig) (env : Env) (v : Machine)
    (g : String) (hg : g ≠ f) :
    (handleCreate f c env v).state.statusDir.find g = v.statusDir.find g := by
  have hfg : f ≠ g := Ne.symm hg
  unfold handleCreate rename
  simp only [writeVerifyImageStatus]
  cases hsrc : v.catalogue.find
      (imgCatalogDirname ++ "/pending/" ++ c.ImageSha256 ++ "/" ++ c.Safename) <;>
    cases h2 : env.renameVerifierFails <;>
    cases h7 : env.renameVerifiedFails <;>
    simp only [find_store_same, Bool.false_eq_true, if_false, if_true] <;>
    repeat' split
  all_goals simp only [Run.state, find_store_other _ _ _ _ hfg]

theorem handleCreate_step (f : String) (c : VerifyImageConfig) (env : Env) (v : Machine) :
    CatalogueStep c.ImageSha256 c.Safename v.catalogue
      (handleCreate f c env v).state.catalogue := by
  unfold handleCreate rename CatalogueStep pendingPath verifierPath verifiedPath moved
  simp only [writeVerifyImageStatus]
  cases hsrc : v.catalogue.find
      (imgCatalogDirname ++ "/pending/" ++ c.ImageSha256 ++ "/" ++ c.Safename) <;>
    cases h2 : env.renameVerifierFails <;>
    cases h7 : env.renameVerifiedFails <;>
    simp only [find_store_same, Bool.false_eq_true, if_false, if_true] <;>
    repeat' split
  all_goals simp_all [Run.state]

theorem handleCreate_own (f : String) (c : VerifyImageConfig) (env : Env) (v : Machine) :
    ∃ st, (handleCreate f c env v).state.statusDir.find f = some st ∧
      st.Safename = c.Safename ∧ st.ImageSha256 = c.ImageSha256 ∧
      (st.State = SwState.DELIVERED →
        ∃ file, file.sha256 = c.ImageSha256 ∧
          (handleCreate f c env v).state.catalogue.find
            (verifiedPath c.ImageSha256 c.Safename) = some file) := by
  unfold handleCreate rename verifiedPath
  simp only [writeVerifyImageStatus]
  cases hsrc : v.catalogue.find
      (imgCatalogDirname ++ "/pending/" ++ c.ImageSha256 ++ "/" ++ c.Safename) <;>
    cases h2 : env.renameVerifierFails <;>
    cases h7 : env.renameVerifiedFails <;>
    simp only [find_store_same, Bool.false_eq_true, if_false, if_true] <;>
    repeat' split
  all_goals simp_all [Run.state, find_store_same]

theorem find_moved_dest (cat : FileMap FileData) (src dest : String) (file : FileData) :
    (moved cat src dest file).find dest = some file :=
  find_store_same _ _ _

theorem find_moved_other (cat : FileMap FileData) (src dest p : String) (file : FileData)
    (h1 : src ≠ p) (h2 : dest ≠ p) :
    (moved cat src dest file).find p = cat.find p := by
  unfold moved
  rw [find_store_other _ _ _ _ h2, find_remove_other _ _ _ h1]

theorem wf_moved (cat : FileMap FileData) (src dest : String) (file : FileData)
    (hwf : WellFormed cat) (hsrc : cat.find src = some file) :
    WellFormed (moved cat src dest file) := by
  intro e he
  rcases mem_store _ _ _ _ he with h | h
  · exact hwf e (mem_remove _ _ _ h)
  · rw [h]
    exact hwf (src, file) (find_mem _ _ _ hsrc)

theorem wf_step (s n : String) (cat cat2 : FileMap FileData) (hwf : WellFormed cat)
    (hstep : CatalogueStep s n cat cat2) : WellFormed cat2 := by
  rcases hstep with h | ⟨file, hsrc, h⟩ | ⟨file, hsrc, _, h⟩
  · rw [h]; exact hwf
  · rw [h]; exact wf_moved _ _ _ _ hwf hsrc
  · rw [h]
    exact wf_moved _ _ _ _ (wf_moved _ _ _ _ hwf hsrc) (find_moved_dest _ _ _ _)

theorem ne_of_under {p q : String} (hp : ¬ underVerified p) (hq : underVerified q) :
    p ≠ q := by
  intro h
  rw [h] at hp
  exact hp hq

theorem backed_moved_aside (cat : FileMap FileData) (s n s2 n2 : String) (file : FileData)
    (hb : Backed cat s2 n2) :
    Backed (moved cat (pendingPath s n) (verifierPath s n) file) s2 n2 := by
  obtain ⟨file2, hf, hs⟩ := hb
  refine ⟨file2, ?_, hs⟩
  rw [find_moved_other _ _ _ _ _
    (ne_of_under (pendingPath_not_under s n) (verifiedPath_under s2 n2))
    (ne_of_under (verifierPath_not_under s n) (verifiedPath_under s2 n2))]
  exact hf

theorem backed_moved_in (cat : FileMap FileData) (s n s2 n2 : String) (file : FileData)
    (hwf : WellFormed cat) (hsrc : cat.find (verifierPath s n) = some file)
    (hsha : file.sha256 = s) (hb : Backed cat s2 n2) :
    Backed (moved cat (verifierPath s n) (verifiedPath s n) file) s2 n2 := by
  obtain ⟨file2, hf, hs⟩ := hb
  by_cases hp : verifiedPath s n = verifiedPath s2 n2
  · have hl : s.length = s2.length := by
      rw [← hsha, ← hs, hwf _ (find_mem _ _ _ hsrc), hwf _ (find_mem _ _ _ hf)]
    have hss : s = s2 := verifiedPath_sha_eq s n s2 n2 hl hp
    refine ⟨file, ?_, by rw [hsha, hss]⟩
    rw [← hp]
    exact find_moved_dest _ _ _ _
  · refine ⟨file2, ?_, hs⟩
    rw [find_moved_other _ _ _ _ _
      (ne_of_under (verifierPath_not_under s n) (verifiedPath_under s2 n2)) hp]
    exact hf

theorem backed_step (s n s2 n2 : String) (cat cat2 : FileMap FileData)
    (hwf : WellFormed cat) (hstep : CatalogueStep s n cat cat2) (hb : Backed cat s2 n2) :
    Backed cat2 s2 n2 := by
  rcases hstep with h | ⟨file, hsrc, h⟩ | ⟨file, hsrc, hsha, h⟩
  · rw [h]; exact hb
  · rw [h]; exact backed_moved_aside _ _ _ _ _ _ hb
  · rw [h]
    exact backed_moved_in _ _ _ _ _ _ (wf_moved _ _ _ _ hwf hsrc)
      (find_moved_dest _ _ _ _) hsha (backed_moved_aside _ _ _ _ _ _ hb)

theorem handleCreate_wf (f : String) (c : VerifyImageConfig) (env : Env) (v : Machine)
    (hwf : WellFormed v.catalogue) :
    WellFormed (handleCreate f c env v).state.catalogue :=
  wf_step _ _ _ _ hwf (handleCreate_step f c env v)

theorem handleCreate_backed (f : String) (c : VerifyImageConfig) (env : Env) (v : Machine)
    (hwf : WellFormed v.catalogue) (hv : DeliveredBacked v) :
    DeliveredBacked (handleCreate f c env v).state := by
  intro g st hg hd
  by_cases hgf : g = f
  · subst hgf
    obtain ⟨st2, h1, hn, hs, hfile⟩ := handleCreate_own g c env v
    rw [h1] at hg
    cases hg
    obtain ⟨file, hsha, hfind⟩ := hfile hd
    refine ⟨file, ?_, ?_⟩
    · rw [hs, hn]; exact hfind
    · rw [hs]; exact hsha
  · rw [handleCreate_others f c env v g hgf] at hg
    exact backed_step _ _ _ _ _ _ hwf (handleCreate_step f c env v) (hv g st hg hd)

theorem handleDelete_backed (f : String) (st : VerifyImageStatus) (v : Machine)
    (hv : DeliveredBacked v) : DeliveredBacked (handleDelete f st v) := by
  intro g st2 hg hd
  exact hv g st2 (find_remove_some _ _ _ _ hg).2 hd

theorem write_backed (f : String) (st : VerifyImageStatus) (v : Machine)
    (hv : DeliveredBacked v)
    (hst : st.State = SwState.DELIVERED → Backed v.catalogue st.ImageSha256 st.Safename) :
    DeliveredBacked (writeVerifyImageStatus st f v) := by
  intro g st2 hg hd
  by_cases hgf : f = g
  · subst hgf
    have h2 : (writeVerifyImageStatus st f v).statusDir.find f = some st :=
      find_store_same _ _ _
    rw [h2] at hg
    cases hg
    exact hst hd
  · have h2 : (writeVerifyImageStatus st f v).statusDir.find g = v.statusDir.find g :=
      find_store_other _ _ _ _ hgf
    rw [h2] at hg
    exact hv g st2 hg hd

theorem handleModify_inv (f : String) (c : VerifyImageConfig) (st : VerifyImageStatus)
    (env : Env) (v : Machine) (hst : v.statusDir.find f = some st)
    (hwf : WellFormed v.catalogue) (hv : DeliveredBacked v) :
    WellFormed (handleModify f c st env v).state.catalogue ∧
      DeliveredBacked (handleModify f c st env v).state := by
  unfold handleModify
  split
  · exact ⟨hwf, hv⟩
  · dsimp only
    have hb0 : st.State = SwState.DELIVERED → Backed v.catalogue st.ImageSha256 st.Safename :=
      fun hd => hv f st hst hd
    have h1 : DeliveredBacked
        (handleDelete f { st with PendingModify := true }
          (writeVerifyImageStatus { st with PendingModify := true } f v)) :=
      handleDelete_backed _ _ _ (write_backed _ _ _ hv hb0)
    have hwf1 : WellFormed
        (handleDelete f { st with PendingModify := true }
          (writeVerifyImageStatus { st with PendingModify := true } f v)).catalogue := hwf
    have h2 := handleCreate_backed f c env _ hwf1 h1
    have hwf2 := handleCreate_wf f c env _ hwf1
    have hstep := handleCreate_step f c env
      (handleDelete f { st with PendingModify := true }
        (writeVerifyImageStatus { st with PendingModify := true } f v))
    cases hr : handleCreate f c env
        (handleDelete f { st with PendingModify := true }
          (writeVerifyImageStatus { st with PendingModify := true } f v)) with
    | fatal v3 =>
      rw [hr] at h2 hwf2
      exact ⟨hwf2, h2⟩
    | returned v3 =>
      rw [hr] at h2 hwf2 hstep
      refine ⟨hwf2, write_backed _ _ _ h2 ?_⟩
      intro hd
      exact backed_step _ _ _ _ _ _ hwf hstep (hb0 hd)

theorem reachable_inv (v : Machine) (h : Reachable v) :
    WellFormed v.catalogue ∧ DeliveredBacked v := by
  induction h with
  | start cat hwf =>
    refine ⟨hwf, ?_⟩
    intro f st hf
    simp [FileMap.find] at hf
  | create v _ f c env ih =>
    exact ⟨handleCreate_wf f c env v ih.1, handleCreate_backed f c env v ih.1 ih.2⟩
  | modify v _ f c st env hst ih => exact handleModify_inv f c st env v hst ih.1 ih.2
  | delete v _ f st _ ih => exact ⟨ih.1, handleDelete_backed f st v ih.2⟩
  | other v _ cat hwf hkeep ih =>
    refine ⟨hwf, ?_⟩
    intro f st hf hd
    obtain ⟨file, hfile, hsha⟩ := ih.2 f st hf hd
    exact ⟨file, by rw [hkeep _ (verifiedPath_under _ _)]; exact hfile, hsha⟩

theorem reachable_handleChange (v : Machine) (h : Reachable v) (operation fileName : String)
    (config : Option VerifyImageConfig) (env : Env) :
    Reachable (handleChange operation fileName config env v).state := by
  unfold handleChange
  split
  · exact h
  · split
    · dsimp only
      split
      · exact h
      · rename_i status hst
        split
        · exact h
        · exact Reachable.delete v h _ _ hst
    · split
      · exact h
      · split
        · exact h
        · rename_i c
          split
          · exact h
          · dsimp only
            split
            · exact Reachable.create v h _ _ _
            · rename_i status hst
              split
              · exact h
              · split
                · exact Reachable.create v h _ _ _
                · split
                  · exact Reachable.delete v h _ _ hst
                  · split
                    · exact Reachable.modify v h _ _ _ _ hst
                    · split
                      · exact h
                      · exact Reachable.modify v h _ _ _ _ hst

theorem quietEnv_succeeds (now : Nat) : (quietEnv now).succeeds :=
  ⟨rfl, rfl, rfl, rfl, rfl, rfl, rfl, rfl⟩

/-- C9: when the staged file is there and no move, open or read fails,
`handleCreate` returns with `PendingAdd = false`, and it ends in
`State = DELIVERED` with the file at `verified/<sha>/<name>` if and only if the
SHA-256 of the file equals `config.ImageSha256`; otherwise it ends in
`State = INITIAL` with `LastErr = "got <actual> expected <claimed>"`, the file
at `verifier/<sha>/<name>` and nothing under `verified/` changed. -/
theorem c9_delivered_iff_digest_matches (statusFilename : String)
    (config : VerifyImageConfig) (env : Env) (v : Machine) (file : FileData)
    (hsrc : v.catalogue.find (pendingPath config.ImageSha256 config.Safename) = some file)
    (henv : env.succeeds) :
    ∃ v2 st,
      handleCreate statusFilename config env v = Run.returned v2 ∧
      v2.statusDir.find statusFilename = some st ∧
      st.PendingAdd = false ∧
      ((st.State = SwState.DELIVERED ∧
          v2.catalogue.find (verifiedPath config.ImageSha256 config.Safename) = some file) ↔
        file.sha256 = config.ImageSha256) ∧
      (file.sha256 = config.ImageSha256 ∨
        (st.State = SwState.INITIAL ∧
          st.LastErr = "got " ++ file.sha256 ++ " expected " ++ config.ImageSha256 ∧
          v2.catalogue.find (verifierPath config.ImageSha256 config.Safename) = some file ∧
          ∀ p, underVerified p → v2.catalogue.find p = v.catalogue.find p)) := by
  by_cases hsha : file.sha256 = config.ImageSha256
  · obtain ⟨v2, hrun, hst, hcat⟩ := handleCreate_match statusFilename config env v file hsrc
      henv hsha
    refine ⟨v2, _, hrun, hst, rfl, ?_, Or.inl hsha⟩
    refine ⟨fun _ => hsha, fun _ => ⟨rfl, ?_⟩⟩
    rw [hcat]
    exact find_moved_dest _ _ _ _
  · obtain ⟨v2, hrun, hst, hcat⟩ := handleCreate_mismatch statusFilename config env v file
      hsrc henv hsha
    refine ⟨v2, _, hrun, hst, rfl, ?_, Or.inr ⟨rfl, rfl, ?_, ?_⟩⟩
    · refine ⟨fun h => ?_, fun h => absurd h hsha⟩
      have h1 := h.1
      cases h1
    · rw [hcat]
      exact find_moved_dest _ _ _ _
    · intro p hp
      rw [hcat]
      exact find_moved_other _ _ _ _ _
        (ne_of_under (pendingPath_not_under _ _) hp)
        (ne_of_under (verifierPath_not_under _ _) hp)

/-- Witness of C9: a staged file whose digest is the claimed one. -/
theorem c9_delivered_iff_digest_matches_witness :
    ∃ v2 st,
      handleCreate imageVerifyStatusFile imageVerifyConfig (quietEnv 7)
        (stagedMachine testSha) = Run.returned v2 ∧
      v2.statusDir.find imageVerifyStatusFile = some st ∧
      st.PendingAdd = false ∧
      ((st.State = SwState.DELIVERED ∧
          v2.catalogue.find
            (verifiedPath imageVerifyConfig.ImageSha256 imageVerifyConfig.Safename) =
            some { size := 4, sha256 := testSha }) ↔
        (FileData.mk 4 testSha).sha256 = imageVerifyConfig.ImageSha256) ∧
      ((FileData.mk 4 testSha).sha256 = imageVerifyConfig.ImageSha256 ∨
        (st.State = SwState.INITIAL ∧
          st.LastErr = "got " ++ (FileData.mk 4 testSha).sha256 ++ " expected " ++
            imageVerifyConfig.ImageSha256 ∧
          v2.catalogue.find
            (verifierPath imageVerifyConfig.ImageSha256 imageVerifyConfig.Safename) =
            some { size := 4, sha256 := testSha } ∧
          ∀ p, underVerified p →
            v2.catalogue.find p = (stagedMachine testSha).catalogue.find p)) :=
  c9_delivered_iff_digest_matches imageVerifyStatusFile imageVerifyConfig (quietEnv 7)
    (stagedMachine testSha) { size := 4, sha256 := testSha } (by decide)
    (quietEnv_succeeds 7)

/-- C10: in every state the Verifier reaches from an empty status directory by
`handleCreate`, `handleModify` and `handleDelete` calls, while other programs
leave `verified/` alone, a status file with `State = DELIVERED` has a file at
`verified/<ImageSha256>/<Safename>` whose SHA-256 is that `ImageSha256`. -/
theorem c10_delivered_is_backed (v : Machine) (h : Reachable v) (statusFilename : String)
    (st : VerifyImageStatus) (hst : v.statusDir.find statusFilename = some st)
    (hd : st.State = SwState.DELIVERED) :
    ∃ file, v.catalogue.find (verifiedPath st.ImageSha256 st.Safename) = some file ∧
      file.sha256 = st.ImageSha256 :=
  (reachable_inv v h).2 statusFilename st hst hd

/-- Witness of C10: the state after the image staged in `pending/` has been
verified is reachable and holds a `DELIVERED` status. -/
theorem c10_delivered_is_backed_witness :
    ∃ file,
      (handleCreate imageVerifyStatusFile imageVerifyConfig (quietEnv 7)
          (stagedMachine testSha)).state.catalogue.find (verifiedPath testSha "img") =
        some file ∧
      file.sha256 = testSha :=
  c10_delivered_is_backed
    (handleCreate imageVerifyStatusFile imageVerifyConfig (quietEnv 7)
      (stagedMachine testSha)).state
    (Reachable.create _ (Reachable.start _ (by decide)) _ _ _)
    imageVerifyStatusFile
    { Safename := "img", DownloadURL := "https://example.com/img", ImageSha256 := testSha,
      PendingAdd := false, PendingModify := false, PendingDelete := false,
      State := SwState.DELIVERED, LastErr := "", LastErrTime := 0 }
    (by decide) rfl

theorem handleCreate_identity (f : String) (c : VerifyImageConfig) (env : Env)
    (v : Machine) (st : VerifyImageStatus)
    (h : (handleCreate f c env v).state.statusDir.find f = some st) :
    st.Safename = c.Safename ∧ st.DownloadURL = c.DownloadURL ∧
      st.ImageSha256 = c.ImageSha256 := by
  revert h
  unfold handleCreate rename
  simp only [writeVerifyImageStatus]
  cases hsrc : v.catalogue.find
      (imgCatalogDirname ++ "/pending/" ++ c.ImageSha256 ++ "/" ++ c.Safename) <;>
    cases h2 : env.renameVerifierFails <;>
    cases h7 : env.renameVerifiedFails <;>
    simp only [find_store_same, Bool.false_eq_true, if_false, if_true] <;>
    repeat' split
  all_goals
    simp only [Run.state, find_store_same]
    intro h
    cases h
    exact ⟨rfl, rfl, rfl⟩

/-- C11 (the code at the failing input): the image was delivered for digest
`testSha`; the config changes the claimed digest to `otherSha`, a matching
file is staged, and the event loop dispatches the change to `handleModify`.
The handler returns, the new file is committed under `verified/<otherSha>/`,
but the status file it leaves still carries `ImageSha256 = testSha` (the
status it was called with), whereas `handleCreate` for the new config leaves
`ImageSha256 = otherSha`. -/
theorem c11_modify_rewrites_old_status :
    (deliveredThenRestaged.statusDir.find imageVerifyStatusFile).map
        (fun st => (st.ImageSha256, st.State)) = some (testSha, SwState.DELIVERED) ∧
    (∃ v, handleChange "M" "img.json" (some changedVerifyConfig) (quietEnv 9)
        deliveredThenRestaged = Run.returned v) ∧
    ((handleChange "M" "img.json" (some changedVerifyConfig) (quietEnv 9)
        deliveredThenRestaged).state.statusDir.find imageVerifyStatusFile).map
        (fun st => (st.ImageSha256, st.State, st.PendingModify)) =
      some (testSha, SwState.DELIVERED, false) ∧
    ((handleChange "M" "img.json" (some changedVerifyConfig) (quietEnv 9)
        deliveredThenRestaged).state.catalogue.find (verifiedPath otherSha "img")) =
      some { size := 3, sha256 := otherSha } ∧
    ((handleCreate imageVerifyStatusFile changedVerifyConfig (quietEnv 9)
        deliveredThenRestaged).state.statusDir.find imageVerifyStatusFile).map
        (fun st => (st.ImageSha256, st.State)) = some (otherSha, SwState.DELIVERED) := by
  refine ⟨by decide, ⟨_, rfl⟩, by decide, by decide, by decide⟩

/-- C20 (the code at the failing input): when `os.Open` fails, and likewise when
the read fails, Verifier `handleCreate` returns and the status file it wrote
last has `PendingAdd = true`. -/
theorem c20_verifier_error_paths_keep_pending_add :
    (∃ v, handleCreate imageVerifyStatusFile imageVerifyConfig (openFailsEnv 7)
        (stagedMachine testSha) = Run.returned v ∧
      (v.statusDir.find imageVerifyStatusFile).map
        (fun st => (st.PendingAdd, st.State, st.LastErr)) =
        some (true, SwState.INITIAL, "open: too many open files")) ∧
    (∃ v, handleCreate imageVerifyStatusFile imageVerifyConfig (readFailsEnv 7)
        (stagedMachine testSha) = Run.returned v ∧
      (v.statusDir.find imageVerifyStatusFile).map
        (fun st => (st.PendingAdd, st.State, st.LastErr)) =
        some (true, SwState.INITIAL, "read: input/output error")) := by
  exact ⟨⟨_, rfl, by decide⟩, ⟨_, rfl, by decide⟩⟩

theorem rename_refused (src dest : String) (v : Machine) :
    rename src dest true v = none := by
  simp only [rename, if_true]

theorem rename_missing (src dest : String) (refused : Bool) (v : Machine)
    (h : v.catalogue.find src = none) : rename src dest refused v = none := by
  unfold rename
  rw [h]
  cases refused <;> simp

theorem handleCreate_rename_failed (f : String) (c : VerifyImageConfig) (env : Env)
    (v : Machine)
    (h : rename (pendingPath c.ImageSha256 c.Safename)
      (verifierPath c.ImageSha256 c.Safename) env.renameVerifierFails
      (writeVerifyImageStatus (statusOf c) f v) = none) :
    handleCreate f c env v = Run.fatal (writeVerifyImageStatus (statusOf c) f v) := by
  unfold pendingPath verifierPath statusOf at h
  unfold handleCreate statusOf
  simp only [h]
  split <;> rfl

/-- C21 (counterexample): with nothing staged at `pending/<sha>/img` the rename
fails and `handleCreate` ends the process: it does not return, and the status
file is the one written at the start of the handler, with `PendingAdd = true`,
`State = DOWNLOADED` and an empty `LastErr`. -/
theorem c21_counterexample :
    unstagedMachine.catalogue.find (pendingPath testSha "img") = none ∧
    (∀ v, handleCreate imageVerifyStatusFile imageVerifyConfig (quietEnv 7)
      unstagedMachine ≠ Run.returned v) ∧
    ((handleCreate imageVerifyStatusFile imageVerifyConfig (quietEnv 7)
      unstagedMachine).state.statusDir.find imageVerifyStatusFile).map
        (fun st => (st.PendingAdd, st.State, st.LastErr)) =
      some (true, SwState.DOWNLOADED, "") := by
  refine ⟨by decide, ?_, by decide⟩
  intro v h
  have hf : handleCreate imageVerifyStatusFile imageVerifyConfig (quietEnv 7)
      unstagedMachine =
      Run.fatal (writeVerifyImageStatus (statusOf imageVerifyConfig)
        imageVerifyStatusFile unstagedMachine) := by decide
  rw [hf] at h
  exact Run.noConfusion h

/-- C21 (amended): when the rename of `pending/<sha>/<name>` into
`verifier/<sha>/<name>` fails, because the source file does not exist or the
system refuses it, `handleCreate` ends the process (`log.Fatal`) without
recording the failure: it does not return, the files are as the first status
write of the handler left them, the status file holding `PendingAdd = true`,
`State = DOWNLOADED` and an empty `LastErr`, and the catalogue is unchanged. -/
theorem c21_rename_failure_is_fatal (f : String) (c : VerifyImageConfig) (env : Env)
    (v : Machine)
    (hfail : v.catalogue.find (pendingPath c.ImageSha256 c.Safename) = none ∨
      env.renameVerifierFails = true) :
    handleCreate f c env v = Run.fatal (writeVerifyImageStatus (statusOf c) f v) ∧
    (∀ v2, handleCreate f c env v ≠ Run.returned v2) ∧
    ((handleCreate f c env v).state.statusDir.find f).map
        (fun st => (st.PendingAdd, st.State, st.LastErr)) =
      some (true, SwState.DOWNLOADED, "") ∧
    (handleCreate f c env v).state.catalogue = v.catalogue := by
  have hr : rename (pendingPath c.ImageSha256 c.Safename)
      (verifierPath c.ImageSha256 c.Safename) env.renameVerifierFails
      (writeVerifyImageStatus (statusOf c) f v) = none := by
    rcases hfail with h | h
    · exact rename_missing _ _ _ _ h
    · rw [h]
      exact rename_refused _ _ _
  have hf := handleCreate_rename_failed f c env v hr
  refine ⟨hf, ?_, ?_, ?_⟩
  · intro v2 h
    rw [hf] at h
    exact Run.noConfusion h
  · rw [hf]
    simp only [Run.state, writeVerifyImageStatus, find_store_same, Option.map_some']
    rfl
  · rw [hf]
    rfl

theorem c21_rename_failure_is_fatal_witness :
    (unstagedMachine.catalogue.find
        (pendingPath imageVerifyConfig.ImageSha256 imageVerifyConfig.Safename) = none ∨
      (quietEnv 7).renameVerifierFails = true) ∧
    handleCreate imageVerifyStatusFile imageVerifyConfig (quietEnv 7) unstagedMachine =
      Run.fatal (writeVerifyImageStatus (statusOf imageVerifyConfig)
        imageVerifyStatusFile unstagedMachine) :=
  ⟨Or.inl (by decide),
    (c21_rename_failure_is_fatal imageVerifyStatusFile imageVerifyConfig (quietEnv 7)
      unstagedMachine (Or.inl (by decide))).1⟩

end Verifier

/-! ## Both programs: create followed by an identical modify -/

/-- C12 (amended): running `handleCreate(c)` and then `handleModify` with the
same `c` and the status that create wrote is a no-op in the Verifier, and in
the Downloader whenever that status has an empty `LastErr` (the create
succeeded): the ledger, the global status file, the status files and the
catalogue are unchanged, and the only effect is the status file written again
with the same content, so no fetch is started. -/
theorem c12_create_then_same_modify_is_noop (a : Arch) (statusFilename : String)
    (config : DownloaderConfig) (env env2 : Downloader.Env) (d : Downloader.Machine)
    (st : DownloaderStatus)
    (verifyFilename : String) (verifyConfig : Verifier.VerifyImageConfig)
    (venv venv2 : Verifier.Env) (v : Verifier.Machine)
    (vst : Verifier.VerifyImageStatus)
    (hst : Downloader.statusAt statusFilename
      (Downloader.handleCreate a statusFilename config env d) = some st)
    (herr : st.LastErr = "")
    (hvst : (Verifier.handleCreate verifyFilename verifyConfig venv v).state.statusDir.find
      verifyFilename = some vst) :
    ((Downloader.handleModify a statusFilename config st env2
        (Downloader.handleCreate a statusFilename config env d)).globalStatus =
        (Downloader.handleCreate a statusFilename config env d).globalStatus ∧
      (Downloader.handleModify a statusFilename config st env2
        (Downloader.handleCreate a statusFilename config env d)).globalStatusFile =
        (Downloader.handleCreate a statusFilename config env d).globalStatusFile ∧
      (Downloader.handleModify a statusFilename config st env2
        (Downloader.handleCreate a statusFilename config env d)).statusDir =
        (Downloader.handleCreate a statusFilename config env d).statusDir ∧
      (Downloader.handleModify a statusFilename config st env2
        (Downloader.handleCreate a statusFilename config env d)).catalogue =
        (Downloader.handleCreate a statusFilename config env d).catalogue ∧
      Downloader.effectsSince (Downloader.handleCreate a statusFilename config env d)
        (Downloader.handleModify a statusFilename config st env2
          (Downloader.handleCreate a statusFilename config env d)) =
        [Downloader.Effect.wroteStatus statusFilename st]) ∧
    Verifier.handleModify verifyFilename verifyConfig vst venv2
        (Verifier.handleCreate verifyFilename verifyConfig venv v).state =
      Run.returned (Verifier.handleCreate verifyFilename verifyConfig venv v).state := by
  constructor
  · obtain ⟨st2, h2, hm⟩ := Downloader.handleCreate_leaves a statusFilename config env d
    rw [hst] at h2
    cases h2
    rw [Downloader.handleModify_same a statusFilename config st env2 _ hm herr]
    refine ⟨rfl, rfl, ?_, rfl, ?_⟩
    · exact store_of_find _ _ _ hst
    · exact Downloader.effectsSince_append _ _ _ rfl
  · obtain ⟨h1, h2, h3⟩ := Verifier.handleCreate_identity verifyFilename verifyConfig venv v
      vst hvst
    unfold Verifier.handleModify
    rw [if_pos ⟨h1.symm, h2.symm, h3.symm⟩]

/-- Witness of C12: the image is downloaded, then modified with the same config;
the staged image is verified, then modified with the same config. -/
theorem c12_create_then_same_modify_is_noop_witness :
    ((Downloader.handleModify Arch.bits64 Downloader.imageStatusFile
        (Downloader.imageConfig 60 1)
        { Downloader.downloadedImageStatus with ReservedSpace := 0 }
        (Downloader.fetchOk 51200 8)
        (Downloader.handleCreate Arch.bits64 Downloader.imageStatusFile
          (Downloader.imageConfig 60 1) (Downloader.fetchOk 51200 7)
          Downloader.ledger100)).globalStatus =
        (Downloader.handleCreate Arch.bits64 Downloader.imageStatusFile
          (Downloader.imageConfig 60 1) (Downloader.fetchOk 51200 7)
          Downloader.ledger100).globalStatus ∧
      (Downloader.handleModify Arch.bits64 Downloader.imageStatusFile
        (Downloader.imageConfig 60 1)
        { Downloader.downloadedImageStatus with ReservedSpace := 0 }
        (Downloader.fetchOk 51200 8)
        (Downloader.handleCreate Arch.bits64 Downloader.imageStatusFile
          (Downloader.imageConfig 60 1) (Downloader.fetchOk 51200 7)
          Downloader.ledger100)).globalStatusFile =
        (Downloader.handleCreate Arch.bits64 Downloader.imageStatusFile
          (Downloader.imageConfig 60 1) (Downloader.fetchOk 51200 7)
          Downloader.ledger100).globalStatusFile ∧
      (Downloader.handleModify Arch.bits64 Downloader.imageStatusFile
        (Downloader.imageConfig 60 1)
        { Downloader.downloadedImageStatus with ReservedSpace := 0 }
        (Downloader.fetchOk 51200 8)
        (Downloader.handleCreate Arch.bits64 Downloader.imageStatusFile
          (Downloader.imageConfig 60 1) (Downloader.fetchOk 51200 7)
          Downloader.ledger100)).statusDir =
        (Downloader.handleCreate Arch.bits64 Downloader.imageStatusFile
          (Downloader.imageConfig 60 1) (Downloader.fetchOk 51200 7)
          Downloader.ledger100).statusDir ∧
      (Downloader.handleModify Arch.bits64 Downloader.imageStatusFile
        (Downloader.imageConfig 60 1)
        { Downloader.downloadedImageStatus with ReservedSpace := 0 }
        (Downloader.fetchOk 51200 8)
        (Downloader.handleCreate Arch.bits64 Downloader.imageStatusFile
          (Downloader.imageConfig 60 1) (Downloader.fetchOk 51200 7)
          Downloader.ledger100)).catalogue =
        (Downloader.handleCreate Arch.bits64 Downloader.imageStatusFile
          (Downloader.imageConfig 60 1) (Downloader.fetchOk 51200 7)
          Downloader.ledger100).catalogue ∧
      Downloader.effectsSince
        (Downloader.handleCreate Arch.bits64 Downloader.imageStatusFile
          (Downloader.imageConfig 60 1) (Downloader.fetchOk 51200 7)
          Downloader.ledger100)
        (Downloader.handleModify Arch.bits64 Downloader.imageStatusFile
          (Downloader.imageConfig 60 1)
          { Downloader.downloadedImageStatus with ReservedSpace := 0 }
          (Downloader.fetchOk 51200 8)
          (Downloader.handleCreate Arch.bits64 Downloader.imageStatusFile
            (Downloader.imageConfig 60 1) (Downloader.fetchOk 51200 7)
            Downloader.ledger100)) =
        [Downloader.Effect.wroteStatus Downloader.imageStatusFile
          { Downloader.downloadedImageStatus with ReservedSpace := 0 }]) ∧
    Verifier.handleModify Verifier.imageVerifyStatusFile Verifier.imageVerifyConfig
        { Verifier.statusOf Verifier.imageVerifyConfig with
          PendingAdd := false, State := SwState.DELIVERED }
        (Verifier.quietEnv 8)
        (Verifier.handleCreate Verifier.imageVerifyStatusFile Verifier.imageVerifyConfig
          (Verifier.quietEnv 7) (Verifier.stagedMachine Verifier.testSha)).state =
      Run.returned
        (Verifier.handleCreate Verifier.imageVerifyStatusFile Verifier.imageVerifyConfig
          (Verifier.quietEnv 7) (Verifier.stagedMachine Verifier.testSha)).state :=
  c12_create_then_same_modify_is_noop Arch.bits64 Downloader.imageStatusFile
    (Downloader.imageConfig 60 1) (Downloader.fetchOk 51200 7) (Downloader.fetchOk 51200 8)
    Downloader.ledger100 { Downloader.downloadedImageStatus with ReservedSpace := 0 }
    Verifier.imageVerifyStatusFile Verifier.imageVerifyConfig (Verifier.quietEnv 7)
    (Verifier.quietEnv 8) (Verifier.stagedMachine Verifier.testSha)
    { Verifier.statusOf Verifier.imageVerifyConfig with
      PendingAdd := false, State := SwState.DELIVERED }
    (by decide) (by decide) (by decide)

end Eve
